import Mathlib

/-!
# tor/utils.go: option resolution and gateway planning

A shallow embedding of the pure functions of `tor/utils.go`
(`truncateID`, `getGenericOptions`, `getGenericOption`, `getBridgeMTU`,
`getBridgeName`, `getGatewayIP`, `getRouterName`) together with the parts of
the Go runtime and standard library they rely on (`strings.Split`,
`strconv.Atoi`, map indexing, type assertions, slice bounds).

A Go call ends in one of two ways: it returns its tuple of results, the last
of which is an `error` that may be nil, or it panics.  Both are kept apart in
`Outcome`.

The link functions (`getIfaceAddr`, `setInterfaceIP`, `vethPair`,
`interfaceUp`) talk to the host through netlink.  They are embedded as
functions from a `World` to a result and a `World`: the state of the host, and
the record of the calls, sleeps and log lines made so far.  How the host
answers is a parameter, `Kernel`.
-/

namespace Tor

/-! ## Go values -/

/-- A Go `string` is an immutable sequence of bytes; `len` and slicing count bytes. -/
abbrev GoString := List UInt8

/-- The bytes (UTF-8) of a string literal of the source. -/
def str (s : String) : GoString := s.toList.flatMap String.utf8EncodeChar

/-- The dynamic values an `interface{}` of the options map can hold (the
request is decoded from JSON): `nil`, booleans, numbers, strings, slices and
maps with string keys.  A map is kept as its list of bindings. -/
inductive GoValue where
  | nil : GoValue
  | bool (b : Bool) : GoValue
  | float64 (bits : Nat) : GoValue
  | string (s : GoString) : GoValue
  | slice (xs : List GoValue) : GoValue
  | map (m : List (GoString × GoValue)) : GoValue

/-- A Go `map[string]interface{}`, as its list of bindings (the first binding of a key counts). -/
abbrev GoMap := List (GoString × GoValue)

/-- Map indexing `m[k]`: the bound value, or the zero value `nil` of `interface{}` when `k` is absent. -/
def GoMap.index (m : GoMap) (k : GoString) : GoValue :=
  match m.lookup k with
  | some v => v
  | none => GoValue.nil

/-- The two sentinel causes of a `*strconv.NumError`. -/
inductive NumErrKind where
  | errSyntax : NumErrKind
  | errRange : NumErrKind
  deriving DecidableEq

/-- A Go `error` value as the source builds it: `fmt.Errorf(format, args...)`
kept as its format string and arguments, or the `*strconv.NumError` of a failed
conversion of `num` (its `Func` field, the name of the failing function, is
left out).  `external` is an error that a library or the host hands back, by
its message; `errorfErr` is `fmt.Errorf(format, args..., cause)`, whose last
argument is itself an error. -/
inductive GoError where
  | errorf (format : String) (args : List GoValue) : GoError
  | numError (num : GoString) (kind : NumErrKind) : GoError
  | external (message : String) : GoError
  | errorfErr (format : String) (args : List GoValue) (cause : GoError) : GoError

/-- Run-time panics the functions of the file can raise. -/
inductive Panic where
  | indexOutOfRange (index len : Nat) : Panic
  | sliceOutOfRange (high len : Nat) : Panic
  | typeAssertion : Panic
  | nilDereference : Panic
  deriving DecidableEq

/-- How a call ends: `ret v err` returns the results `v` with the error `err`
(`none` is Go's nil error), `panic p` unwinds with a run-time panic. -/
inductive Outcome (α : Type) where
  | ret (v : α) (err : Option GoError) : Outcome α
  | panic (p : Panic) : Outcome α

/-! ## Requests -/

/-- The type `network.IPAMData` of go-plugins-helpers. -/
structure IPAMData where
  AddressSpace : GoString
  Pool : GoString
  Gateway : GoString
  AuxAddresses : GoMap

/-- The type `network.CreateNetworkRequest` of go-plugins-helpers; the pool
lists are `[]*IPAMData`, so an entry may be the nil pointer (`none`).  The
functions below receive a pointer to such a request, taken to be non-nil. -/
structure CreateNetworkRequest where
  NetworkID : GoString
  Options : GoMap
  IPv4Data : List (Option IPAMData)
  IPv6Data : List (Option IPAMData)

/-- What `utils.go` takes from outside the file: the package-level string
constants declared in another file of the package, and the width of `int` on
the build target.  The results below hold for all values of the constants. -/
structure Consts where
  genericOptionsKey : GoString
  mtuOption : GoString
  bridgeNameOption : GoString
  routerNameOption : GoString
  bridgePrefix : GoString
  torPortPrefix : GoString
  /-- The width of `int` on the build target (`strconv.IntSize`). -/
  intSize : Nat

/-- Modelled from the spec: the constant `defaultMTU` is declared outside
`utils.go`; the spec fixes its value ("returns a fixed default (1500) when
absent"). -/
def defaultMTU : Int := 1500

/-! ## Standard library -/

/-- The byte `/`, the separator of `strings.Split(gatewayIP, "/")`. -/
def slash : UInt8 := 47

/-- The function `strings.Split(s, sep)` for a separator of one byte, the only
way the source calls it: the pieces of `s` between the occurrences of `sep`,
in order.  The result is never empty; `s` without `sep` gives `[s]`. -/
def stringsSplit (sep : UInt8) : GoString → List GoString
  | [] => [[]]
  | c :: cs =>
    if c = sep then [] :: stringsSplit sep cs
    else
      match stringsSplit sep cs with
      | [] => [[c]]
      | p :: ps => (c :: p) :: ps

/-- The loop of `strconv.ParseUint(s, 10, bitSize)`: `n` is the value of the
digits read so far.  A byte that is no decimal digit ends the loop with
`ErrSyntax` and value 0; a value above `maxVal` ends it with `ErrRange` and
value `maxVal`. -/
def parseUintLoop (maxVal : Nat) : GoString → Nat → Nat × Option NumErrKind
  | [], n => (n, none)
  | c :: cs, n =>
    if 48 ≤ c.toNat ∧ c.toNat ≤ 57 then
      if maxVal < n * 10 + (c.toNat - 48) then (maxVal, some NumErrKind.errRange)
      else parseUintLoop maxVal cs (n * 10 + (c.toNat - 48))
    else (0, some NumErrKind.errSyntax)

/-- The function `strconv.ParseUint(s, 10, bitSize)`: the empty string is a syntax error. -/
def parseUint (bitSize : Nat) (s : GoString) : Nat × Option NumErrKind :=
  if s = [] then (0, some NumErrKind.errSyntax)
  else parseUintLoop (2 ^ bitSize - 1) s 0

/-- The function `strconv.ParseInt(s, 10, bitSize)`: an optional sign, then
`ParseUint` on the rest; a magnitude that does not fit the signed type gives
`ErrRange` with the nearest bound. -/
def parseInt (bitSize : Nat) (s : GoString) : Int × Option NumErrKind :=
  match s with
  | [] => (0, some NumErrKind.errSyntax)
  | c :: cs =>
    let neg : Bool := c = 45
    let digits : GoString := if c = 43 ∨ c = 45 then cs else c :: cs
    match parseUint bitSize digits with
    | (_, some NumErrKind.errSyntax) => (0, some NumErrKind.errSyntax)
    | (un, _) =>
      let cutoff : Nat := 2 ^ (bitSize - 1)
      if neg = false ∧ cutoff ≤ un then ((cutoff : Int) - 1, some NumErrKind.errRange)
      else if neg = true ∧ cutoff < un then (-(cutoff : Int), some NumErrKind.errRange)
      else (if neg then -(un : Int) else (un : Int), none)

/-- The function `strconv.Atoi(s)`: `ParseInt(s, 10, 0)` converted to `int`;
its error is a `*NumError` that carries the input. -/
def atoi (intSize : Nat) (s : GoString) : Outcome Int :=
  match parseInt intSize s with
  | (n, none) => Outcome.ret n none
  | (n, some k) => Outcome.ret n (some (GoError.numError s k))

/-! ## The functions of utils.go -/

/-- Source: `truncateID`, `return id[:5]`; the slice expression panics when `id` has fewer than 5 bytes. -/
def truncateID (id : GoString) : Outcome GoString :=
  if 5 ≤ id.length then Outcome.ret (id.take 5) none
  else Outcome.panic (Panic.sliceOutOfRange 5 id.length)

/-- Source: `getGenericOptions`, `r.Options[genericOptionsKey].(map[string]interface{})`;
the one-result type assertion panics unless the value is such a map. -/
def getGenericOptions (c : Consts) (r : CreateNetworkRequest) : Outcome GoMap :=
  match r.Options.index c.genericOptionsKey with
  | GoValue.map m => Outcome.ret m none
  | _ => Outcome.panic Panic.typeAssertion

/-- Source: `getGenericOption`.  The test `genericOptions[opt] != nil` fails
for an absent key and for a key bound to nil, and `def` is returned; the
two-result assertion `.(string)` succeeds on a string only, every other value
gives the cast error with the zero string. -/
def getGenericOption (c : Consts) (r : CreateNetworkRequest) (opt : GoString) (dflt : GoString) :
    Outcome GoString :=
  match getGenericOptions c r with
  | Outcome.panic p => Outcome.panic p
  | Outcome.ret genericOptions _ =>
    match genericOptions.index opt with
    | GoValue.nil => Outcome.ret dflt none
    | GoValue.string value => Outcome.ret value none
    | v =>
      Outcome.ret []
        (some (GoError.errorf "Casting the value of the %s option to string failed: %v"
          [GoValue.string opt, v]))

/-- Source: `getBridgeMTU`: an error of `getGenericOption` is returned with 0;
a non-empty option string goes through `strconv.Atoi`, whose two results are
returned as they are; otherwise the default is returned. -/
def getBridgeMTU (c : Consts) (r : CreateNetworkRequest) : Outcome Int :=
  match getGenericOption c r c.mtuOption [] with
  | Outcome.panic p => Outcome.panic p
  | Outcome.ret _ (some err) => Outcome.ret 0 (some err)
  | Outcome.ret mtu none =>
    if mtu ≠ [] then atoi c.intSize mtu
    else Outcome.ret defaultMTU none

/-- Source: `getBridgeName`: a non-empty option string is the name; otherwise
`bridgePrefix + truncateID(r.NetworkID)`. -/
def getBridgeName (c : Consts) (r : CreateNetworkRequest) : Outcome GoString :=
  match getGenericOption c r c.bridgeNameOption [] with
  | Outcome.panic p => Outcome.panic p
  | Outcome.ret _ (some err) => Outcome.ret [] (some err)
  | Outcome.ret bridgeName none =>
    if bridgeName ≠ [] then Outcome.ret bridgeName none
    else
      match truncateID r.NetworkID with
      | Outcome.panic p => Outcome.panic p
      | Outcome.ret short _ => Outcome.ret (c.bridgePrefix ++ short) none

/-- Source: `getGatewayIP`, lines 139-145 and 148-154: the gateway of the
first entry of a pool list, when the list is not empty, its first entry is not
nil and that entry's `Gateway` is not empty; otherwise `gatewayIP` is left as
it was. -/
def pickGateway (data : List (Option IPAMData)) (gatewayIP : GoString) : GoString :=
  match data with
  | some d :: _ => if d.Gateway ≠ [] then d.Gateway else gatewayIP
  | _ => gatewayIP

/-- Source: `getGatewayIP`, lines 137-154: the string `gatewayIP` after both
pools were inspected, IPv6 first and IPv4 second. -/
def selectGateway (r : CreateNetworkRequest) : GoString :=
  pickGateway r.IPv4Data (pickGateway r.IPv6Data [])

/-- Source: `getGatewayIP`, lines 159-163: `parts := strings.Split(gatewayIP, "/")`,
then `parts[0]` and `parts[1]`.  Go evaluates `parts[0] == "" || parts[1] == ""`
left to right, so `parts[1]` is only indexed when `parts[0]` is not empty, and
indexing it panics when `parts` has one element. -/
def splitGateway (gatewayIP : GoString) : Outcome (GoString × GoString) :=
  match stringsSplit slash gatewayIP with
  | [] => Outcome.panic (Panic.indexOutOfRange 0 0)
  | [p0] =>
    if p0 = [] then
      Outcome.ret ([], []) (some (GoError.errorf "Cannot split gateway IP address" []))
    else Outcome.panic (Panic.indexOutOfRange 1 1)
  | p0 :: p1 :: _ =>
    if p0 = [] ∨ p1 = [] then
      Outcome.ret ([], []) (some (GoError.errorf "Cannot split gateway IP address" []))
    else Outcome.ret (p0, p1) none

/-- Source: `getGatewayIP`: the selection, the test `gatewayIP == ""`, and
the split. -/
def getGatewayIP (r : CreateNetworkRequest) : Outcome (GoString × GoString) :=
  let gatewayIP := selectGateway r
  if gatewayIP = [] then
    Outcome.ret ([], []) (some (GoError.errorf "No gateway IP found" []))
  else splitGateway gatewayIP

/-- Source: `getRouterName`: a non-empty option string is the name;
otherwise the "Routing container not specified" error, formatted with
`routerNameOption`. -/
def getRouterName (c : Consts) (r : CreateNetworkRequest) : Outcome GoString :=
  match getGenericOption c r c.routerNameOption [] with
  | Outcome.panic p => Outcome.panic p
  | Outcome.ret _ (some err) => Outcome.ret [] (some err)
  | Outcome.ret routerName none =>
    if routerName ≠ [] then Outcome.ret routerName none
    else
      Outcome.ret []
        (some (GoError.errorf
          "Routing container not specified: speficy the routing container with the '%s' option"
          [GoValue.string c.routerNameOption]))

/-! ## The host and the netlink library -/

/-- The type `net.IPNet`: an address and its mask, as bytes. -/
structure IPNet where
  IP : List UInt8
  Mask : List UInt8

/-- The type `netlink.Addr`; the embedded `*net.IPNet` is set in every address
that the host lists and that the file builds. -/
structure Addr where
  IPNet : Tor.IPNet
  Label : GoString
  Flags : Int
  Scope : Int

/-- The type `netlink.LinkAttrs`: the three fields that the file reads or
writes, and its remaining fields by name. -/
structure LinkAttrs where
  Index : Int
  Name : GoString
  MasterIndex : Int
  others : GoMap

/-- A non-nil value of the interface `netlink.Link`: what its methods `Attrs()`
and `Type()` give. -/
structure Link where
  Attrs : LinkAttrs
  TypeName : GoString

/-- The type `netlink.Veth`. -/
structure Veth where
  LinkAttrs : Tor.LinkAttrs
  PeerName : GoString

/-- An argument of a log call. -/
inductive LogArg where
  | string (s : GoString) : LogArg
  | ip (bytes : List UInt8) : LogArg

/-- What a call does to the outside, in the order it does it: the netlink
calls, the sleeps and the log lines. -/
inductive Event where
  | linkByName (name : GoString) : Event
  | addrList (link : Link) (family : Int) : Event
  | parseIPNet (s : GoString) : Event
  | addrAdd (link : Link) (addr : Addr) : Event
  | linkSetUp (link : Link) : Event
  | sleep (nanoseconds : Nat) : Event
  | debugf (format : String) (args : List LogArg) : Event
  | infof (format : String) (args : List LogArg) : Event

/-- The state of the host that the file can change: the addresses of every
interface, by link index and address family, and which links are up. -/
structure Host where
  addrs : Int → Int → List Addr
  up : Int → Bool

/-- The host together with the record of a run: how many `LinkByName` calls
were made so far, and the events so far, oldest first. -/
structure World where
  host : Host
  lookups : Nat
  trace : List Event

/-- How the netlink library and the host behind it answer.  `linkByName n name`
is the outcome of the lookup of `name` made after `n` earlier lookups, so a
link may become visible from one attempt to the next; netlink hands back a nil
`Link` with every error, hence no link on `Except.error`.  The three `Error`
fields say whether the host refuses a call in a given state. -/
structure Kernel where
  newLinkAttrs : LinkAttrs
  parseIPNet : GoString → Except GoError IPNet
  familyOf : Addr → Int
  linkByName : Nat → GoString → Except GoError Link
  addrListError : Host → Link → Int → Option GoError
  addrAddError : Host → Link → Addr → Option GoError
  linkSetUpError : Host → Link → Option GoError

/-- The constant `netlink.FAMILY_V4` (`AF_INET`). -/
def FAMILY_V4 : Int := 2

/-- The constant `time.Second`, in nanoseconds. -/
def second : Nat := 1000000000

/-- Append an event to the record. -/
def World.emit (w : World) (e : Event) : World :=
  { w with trace := w.trace ++ [e] }

/-- The call `netlink.LinkByName(name)`: a query, the host is not changed. -/
def netlinkLinkByName (k : Kernel) (name : GoString) (w : World) : Except GoError Link × World :=
  (k.linkByName w.lookups name,
    { w with lookups := w.lookups + 1, trace := w.trace ++ [Event.linkByName name] })

/-- The call `netlink.AddrList(link, family)`: a query, the host is not changed. -/
def netlinkAddrList (k : Kernel) (link : Link) (family : Int) (w : World) :
    Except GoError (List Addr) × World :=
  match k.addrListError w.host link family with
  | some err => (Except.error err, w.emit (Event.addrList link family))
  | none => (Except.ok (w.host.addrs link.Attrs.Index family), w.emit (Event.addrList link family))

/-- The call `netlink.ParseIPNet(s)`: a pure function of the library. -/
def netlinkParseIPNet (k : Kernel) (s : GoString) (w : World) : Except GoError IPNet × World :=
  (k.parseIPNet s, w.emit (Event.parseIPNet s))

/-- The call `netlink.AddrAdd(link, addr)`: when the host accepts it, the
address joins the addresses of the link; when it refuses, nothing changes. -/
def netlinkAddrAdd (k : Kernel) (link : Link) (addr : Addr) (w : World) :
    Option GoError × World :=
  match k.addrAddError w.host link addr with
  | some err => (some err, w.emit (Event.addrAdd link addr))
  | none =>
    (none,
      { host :=
          { addrs := fun i f =>
              if i = link.Attrs.Index ∧ f = k.familyOf addr then w.host.addrs i f ++ [addr]
              else w.host.addrs i f
            up := w.host.up }
        lookups := w.lookups
        trace := w.trace ++ [Event.addrAdd link addr] })

/-- The call `netlink.LinkSetUp(link)`: when the host accepts it, the link is up. -/
def netlinkLinkSetUp (k : Kernel) (link : Link) (w : World) : Option GoError × World :=
  match k.linkSetUpError w.host link with
  | some err => (some err, w.emit (Event.linkSetUp link))
  | none =>
    (none,
      { host :=
          { addrs := w.host.addrs
            up := fun i => if i = link.Attrs.Index then true else w.host.up i }
        lookups := w.lookups
        trace := w.trace ++ [Event.linkSetUp link] })

/-! ## The link functions of utils.go -/

/-- Source: `getIfaceAddr`.  The result is a `*net.IPNet`, nil beside an error. -/
def getIfaceAddr (k : Kernel) (name : GoString) (w : World) : Outcome (Option IPNet) × World :=
  match netlinkLinkByName k name w with
  | (Except.error err, w1) => (Outcome.ret none (some err), w1)
  | (Except.ok iface, w1) =>
    match netlinkAddrList k iface FAMILY_V4 w1 with
    | (Except.error err, w2) => (Outcome.ret none (some err), w2)
    | (Except.ok addrs, w2) =>
      match addrs with
      | [] =>
        (Outcome.ret none
          (some (GoError.errorf "Interface %s has no IP addresses" [GoValue.string name])), w2)
      | first :: rest =>
        let w3 : World :=
          if 1 < (first :: rest).length then
            w2.emit (Event.infof
              "Interface [ %v ] has more than 1 IPv4 address. Defaulting to using [ %v ]\n"
              [LogArg.string name, LogArg.ip first.IPNet.IP])
          else w2
        (Outcome.ret (some first.IPNet) none, w3)

/-- Source: `setInterfaceIP`, lines 41-48, the loop `for i := 0; i < retries; i++`
with `fuel` iterations left; `iface` and `err` are the variables of that name.
A successful lookup breaks out of the loop; a failed one is followed by the
debug line and by `time.Sleep(2 * time.Second)`, and then by the next
iteration if one is left. -/
def lookupRetry (k : Kernel) (name : GoString) :
    Nat → Option Link → Option GoError → World → Option Link × Option GoError × World
  | 0, iface, err, w => (iface, err, w)
  | fuel + 1, _, _, w =>
    match netlinkLinkByName k name w with
    | (Except.ok link, w1) => (some link, none, w1)
    | (Except.error e, w1) =>
      lookupRetry k name fuel none (some e)
        ((w1.emit (Event.debugf "error retrieving new bridge netlink link [ %s ]... retrying"
          [LogArg.string name])).emit (Event.sleep (2 * second)))

/-- Source: `setInterfaceIP`, lines 52-57: parse `rawIP`, build the address,
add it to `iface`.  `AddrAdd` calls `Attrs()` on the link, which panics on a
nil `Link`. -/
def parseAndAdd (k : Kernel) (iface : Option Link) (rawIP : GoString) (w : World) :
    Outcome Unit × World :=
  match netlinkParseIPNet k rawIP w with
  | (Except.error err, w1) => (Outcome.ret () (some err), w1)
  | (Except.ok ipNet, w1) =>
    match iface with
    | none => (Outcome.panic Panic.nilDereference, w1)
    | some link =>
      match netlinkAddrAdd k link { IPNet := ipNet, Label := [], Flags := 0, Scope := 0 } w1 with
      | (err, w2) => (Outcome.ret () err, w2)

/-- Source: `setInterfaceIP`, with `retries := 2`. -/
def setInterfaceIP (k : Kernel) (name : GoString) (rawIP : GoString) (w : World) :
    Outcome Unit × World :=
  match lookupRetry k name 2 none none w with
  | (_, some err, w1) =>
    (Outcome.ret ()
      (some (GoError.errorfErr
        "Abandoning retrieving the new bridge link from netlink, Run [ ip link ] to troubleshoot the error: %v"
        [] err)), w1)
  | (iface, none, w1) => parseAndAdd k iface rawIP w1

/-- Source: `vethPair`. -/
def vethPair (c : Consts) (k : Kernel) (suffix : GoString) (bridgeName : GoString) (w : World) :
    Outcome (Option Veth) × World :=
  match netlinkLinkByName k bridgeName w with
  | (Except.error err, w1) => (Outcome.ret none (some err), w1)
  | (Except.ok br, w1) =>
    (Outcome.ret
      (some
        { LinkAttrs :=
            { k.newLinkAttrs with
              Name := c.torPortPrefix ++ suffix
              MasterIndex := br.Attrs.Index }
          PeerName := str "ethc" ++ suffix }) none, w1)

/-- Source: `interfaceUp`.  In the error branch `iface` is the nil `Link` that
`LinkByName` returned with the error, and the argument `iface.Attrs().Name` of
`fmt.Errorf` is evaluated first: the method call on the nil interface panics. -/
def interfaceUp (k : Kernel) (name : GoString) (w : World) : Outcome Unit × World :=
  match netlinkLinkByName k name w with
  | (Except.error _, w1) => (Outcome.panic Panic.nilDereference, w1)
  | (Except.ok iface, w1) =>
    match netlinkLinkSetUp k iface w1 with
    | (err, w2) => (Outcome.ret () err, w2)

/-! ## Reading a record -/

/-- The number of `LinkByName` calls in a record. -/
def countLookups (t : List Event) : Nat :=
  t.countP (fun e => match e with | Event.linkByName _ => true | _ => false)

/-- The number of `ParseIPNet` calls in a record. -/
def countParses (t : List Event) : Nat :=
  t.countP (fun e => match e with | Event.parseIPNet _ => true | _ => false)

/-- The number of `AddrAdd` calls in a record. -/
def countAddrAdds (t : List Event) : Nat :=
  t.countP (fun e => match e with | Event.addrAdd _ _ => true | _ => false)

/-- The number of `LinkSetUp` calls in a record. -/
def countLinkSetUps (t : List Event) : Nat :=
  t.countP (fun e => match e with | Event.linkSetUp _ => true | _ => false)

/-- The number of sleeps in a record. -/
def countSleeps (t : List Event) : Nat :=
  t.countP (fun e => match e with | Event.sleep _ => true | _ => false)

/-- The total time slept in a record, in nanoseconds. -/
def sleepTotal : List Event → Nat
  | [] => 0
  | Event.sleep d :: t => d + sleepTotal t
  | _ :: t => sleepTotal t

/-- The events that a call added to the record: those of `after` behind the
ones `before` already had. -/
def eventsSince (before : World) (after : World) : List Event :=
  after.trace.drop before.trace.length

/-- The link that the retry of `setInterfaceIP` ends with, said as the claim
says it: the link of the first successful one of at most two lookups, made
after `n` earlier lookups; none when both fail. -/
def firstVisible (k : Kernel) (name : GoString) (n : Nat) : Option Link :=
  match k.linkByName n name with
  | Except.ok link => some link
  | Except.error _ =>
    match k.linkByName (n + 1) name with
    | Except.ok link => some link
    | Except.error _ => none

/-! ## Decimal integers, as the specification speaks of them -/

/-- Every byte of `ds` is a decimal digit `0`..`9`. -/
def allDigits (ds : GoString) : Bool :=
  ds.all (fun c => decide (48 ≤ c.toNat ∧ c.toNat ≤ 57))

/-- The number that the digit string `ds` denotes, most significant digit
first, when `n` is the number denoted by the digits before it. -/
def digitsValue : GoString → Nat → Nat
  | [], n => n
  | c :: cs, n => digitsValue cs (n * 10 + (c.toNat - 48))

/-- The integer that a well-formed decimal integer string denotes: an optional
sign `+` or `-` followed by one or more decimal digits; `none` for every other
string (the empty string included). -/
def decimalValue (s : GoString) : Option Int :=
  match s with
  | [] => none
  | c :: cs =>
    let ds : GoString := if c = 43 ∨ c = 45 then cs else c :: cs
    if ds ≠ [] ∧ allDigits ds = true then
      some (if c = 45 then -(digitsValue ds 0 : Int) else (digitsValue ds 0 : Int))
    else none

/-- The decimal digits of `n` without leading zeros (`0` for zero); `fuel`
bounds the number of digits and `n + 1` is always enough. -/
def natDecimal : Nat → Nat → GoString
  | 0, _ => []
  | fuel + 1, n =>
    if n < 10 then [UInt8.ofNat (48 + n)]
    else natDecimal fuel (n / 10) ++ [UInt8.ofNat (48 + n % 10)]

/-- The decimal string of the integer `n`, as `strconv.Itoa` writes it: a
leading `-` for a negative number, then the digits of its magnitude. -/
def itoa (n : Int) : GoString :=
  if n < 0 then 45 :: natDecimal (n.natAbs + 1) n.natAbs
  else natDecimal (n.natAbs + 1) n.natAbs

/-! ## Sample data -/

/-- Sample values of the package constants, used where a concrete request is evaluated. -/
def sampleConsts : Consts where
  genericOptionsKey := str "com.docker.network.generic"
  mtuOption := str "mtu"
  bridgeNameOption := str "bridge-name"
  routerNameOption := str "router-name"
  bridgePrefix := str "torbr-"
  torPortPrefix := str "tor-veth0-"
  intSize := 64

/-- An address pool entry that carries only a gateway. -/
def gatewayOnly (g : GoString) : Option IPAMData :=
  some { AddressSpace := [], Pool := [], Gateway := g, AuxAddresses := [] }

/-- A request with the given network ID, generic options and pools. -/
def mkRequest (id : GoString) (generic : GoMap) (v4 v6 : List (Option IPAMData)) :
    CreateNetworkRequest :=
  { NetworkID := id
    Options := [(sampleConsts.genericOptionsKey, GoValue.map generic)]
    IPv4Data := v4
    IPv6Data := v6 }

/-- A sample bridge link, index 7. -/
def sampleBridge : Link :=
  { Attrs := { Index := 7, Name := str "torbr-abcde", MasterIndex := 0, others := [] }
    TypeName := str "bridge" }

/-- A sample address `10.0.0.1/24`. -/
def sampleNet : IPNet := { IP := [10, 0, 0, 1], Mask := [255, 255, 255, 0] }

/-- A second sample address `10.0.0.2/24`. -/
def sampleNet2 : IPNet := { IP := [10, 0, 0, 2], Mask := [255, 255, 255, 0] }

/-- A sample host answer: the link `torbr-abcde` is always visible, `late0` is
visible from the second lookup on, nothing else is ever visible; only
`10.0.0.1/24` parses; no call is refused. -/
def sampleKernel : Kernel where
  newLinkAttrs := { Index := 0, Name := [], MasterIndex := 0, others := [(str "Alias", GoValue.string [])] }
  parseIPNet := fun s =>
    if s = str "10.0.0.1/24" then Except.ok sampleNet
    else Except.error (GoError.external "invalid CIDR address")
  familyOf := fun _ => FAMILY_V4
  linkByName := fun n name =>
    if name = str "torbr-abcde" then Except.ok sampleBridge
    else if name = str "late0" ∧ 1 ≤ n then
      Except.ok { Attrs := { Index := 9, Name := str "late0", MasterIndex := 0, others := [] }
                  TypeName := str "veth" }
    else Except.error (GoError.external "Link not found")
  addrListError := fun _ _ _ => none
  addrAddError := fun _ _ _ => none
  linkSetUpError := fun _ _ => none

/-- A sample start: the bridge has the two addresses `10.0.0.1/24` and
`10.0.0.2/24`, no other interface has one, nothing is up, nothing was called. -/
def sampleWorld : World where
  host :=
    { addrs := fun i f =>
        if i = 7 ∧ f = FAMILY_V4 then
          [{ IPNet := sampleNet, Label := [], Flags := 0, Scope := 0 },
           { IPNet := sampleNet2, Label := [], Flags := 0, Scope := 0 }]
        else []
      up := fun _ => false }
  lookups := 0
  trace := []

/-! ## Lemmas on the standard library -/

theorem stringsSplit_ne_nil (sep : UInt8) (s : GoString) : stringsSplit sep s ≠ [] := by
  induction s with
  | nil => simp [stringsSplit]
  | cons c cs ih =>
    unfold stringsSplit
    split
    · simp
    · split <;> simp

theorem stringsSplit_of_not_mem (sep : UInt8) (a : GoString) (ha : sep ∉ a) :
    stringsSplit sep a = [a] := by
  induction a with
  | nil => rfl
  | cons c cs ih =>
    have hc : c ≠ sep := fun h => ha (by simp [h])
    have hcs : sep ∉ cs := fun h => ha (List.mem_cons_of_mem _ h)
    simp [stringsSplit, hc, ih hcs]

theorem stringsSplit_append_sep (sep : UInt8) (a b : GoString) (ha : sep ∉ a) :
    stringsSplit sep (a ++ sep :: b) = a :: stringsSplit sep b := by
  induction a with
  | nil => simp [stringsSplit]
  | cons c cs ih =>
    have hc : c ≠ sep := fun h => ha (by simp [h])
    have hcs : sep ∉ cs := fun h => ha (List.mem_cons_of_mem _ h)
    simp [stringsSplit, hc, ih hcs]

/-- The first piece of a split is free of the separator; it is the whole
string when it is the only piece, and otherwise the string is that piece, the
separator, and a rest whose split gives the other pieces. -/
theorem stringsSplit_cons_inv (sep : UInt8) (s p : GoString) (ps : List GoString)
    (h : stringsSplit sep s = p :: ps) :
    sep ∉ p ∧ (ps = [] → s = p) ∧
      (ps ≠ [] → ∃ t, s = p ++ sep :: t ∧ stringsSplit sep t = ps) := by
  induction s generalizing p ps with
  | nil =>
    simp only [stringsSplit, List.cons.injEq] at h
    obtain ⟨rfl, rfl⟩ := h
    simp
  | cons c cs ih =>
    unfold stringsSplit at h
    by_cases hc : c = sep
    · simp only [hc, if_true, List.cons.injEq] at h
      obtain ⟨rfl, rfl⟩ := h
      refine ⟨by simp, fun h0 => absurd h0 (stringsSplit_ne_nil sep cs), fun _ => ?_⟩
      exact ⟨cs, by simp [hc], rfl⟩
    · simp only [hc, if_false] at h
      cases hcs : stringsSplit sep cs with
      | nil => exact absurd hcs (stringsSplit_ne_nil sep cs)
      | cons q qs =>
        rw [hcs] at h
        simp only [List.cons.injEq] at h
        obtain ⟨rfl, rfl⟩ := h
        obtain ⟨h1, h2, h3⟩ := ih q qs hcs
        refine ⟨?_, ?_, ?_⟩
        · intro hmem
          rcases List.mem_cons.mp hmem with h' | h'
          · exact hc h'.symm
          · exact h1 h'
        · intro h0
          rw [h2 h0]
        · intro h0
          obtain ⟨t, ht, hst⟩ := h3 h0
          exact ⟨t, by rw [ht]; rfl, hst⟩

/-! ## Lemmas on decimal strings and strconv -/

theorem toNat_ofNat_of_lt (n : Nat) (h : n < 256) : (UInt8.ofNat n).toNat = n := by
  show (Fin.ofNat n).val = n
  simp [Fin.ofNat, Nat.mod_eq_of_lt h]

theorem le_digitsValue (ds : GoString) (n : Nat) : n ≤ digitsValue ds n := by
  induction ds generalizing n with
  | nil => simp [digitsValue]
  | cons c cs ih =>
    simp only [digitsValue]
    exact le_trans (by omega) (ih _)

theorem digitsValue_append (xs ys : GoString) (n : Nat) :
    digitsValue (xs ++ ys) n = digitsValue ys (digitsValue xs n) := by
  induction xs generalizing n with
  | nil => rfl
  | cons c cs ih => simp [digitsValue, ih]

theorem allDigits_append (xs ys : GoString) :
    allDigits (xs ++ ys) = (allDigits xs && allDigits ys) := by
  simp [allDigits]

theorem allDigits_natDecimal (fuel n : Nat) : allDigits (natDecimal fuel n) = true := by
  induction fuel generalizing n with
  | zero => rfl
  | succ f ih =>
    unfold natDecimal
    split
    · rename_i h
      simp [allDigits, toNat_ofNat_of_lt (48 + n) (by omega)]
      omega
    · have hm : n % 10 < 10 := Nat.mod_lt _ (by decide)
      rw [allDigits_append, ih]
      simp [allDigits, toNat_ofNat_of_lt (48 + n % 10) (by omega)]
      omega

theorem natDecimal_ne_nil (fuel n : Nat) : natDecimal (fuel + 1) n ≠ [] := by
  unfold natDecimal
  split <;> simp

theorem digitsValue_natDecimal (fuel n : Nat) (h : n < fuel) :
    digitsValue (natDecimal fuel n) 0 = n := by
  induction fuel generalizing n with
  | zero => omega
  | succ f ih =>
    unfold natDecimal
    split
    · rename_i h10
      simp [digitsValue, toNat_ofNat_of_lt (48 + n) (by omega)]
    · have hm : n % 10 < 10 := Nat.mod_lt _ (by decide)
      rw [digitsValue_append, ih (n / 10) (by omega)]
      simp only [digitsValue, toNat_ofNat_of_lt (48 + n % 10) (by omega)]
      omega

theorem head_of_allDigits (c : UInt8) (cs : GoString) (h : allDigits (c :: cs) = true) :
    ¬ (c = 43 ∨ c = 45) := by
  simp only [allDigits, List.all_cons, Bool.and_eq_true, decide_eq_true_eq] at h
  rintro (rfl | rfl)
  · exact absurd h.1.1 (by decide)
  · exact absurd h.1.1 (by decide)

theorem decimalValue_of_digits (ds : GoString) (hne : ds ≠ []) (hd : allDigits ds = true) :
    decimalValue ds = some (digitsValue ds 0 : Int) := by
  match ds, hne, hd with
  | c :: cs, _, hd =>
    have hc := head_of_allDigits c cs hd
    have hc45 : c ≠ 45 := fun h => hc (Or.inr h)
    have hc43 : c ≠ 43 := fun h => hc (Or.inl h)
    simp [decimalValue, hd, hc45, hc43]

theorem decimalValue_itoa (n : Int) : decimalValue (itoa n) = some n := by
  have hd := allDigits_natDecimal (n.natAbs + 1) n.natAbs
  have hne := natDecimal_ne_nil n.natAbs n.natAbs
  have hv := digitsValue_natDecimal (n.natAbs + 1) n.natAbs (Nat.lt_succ_self _)
  unfold itoa
  split
  · rename_i hneg
    simp only [decimalValue, or_true, if_true, hne, hd, hv, ne_eq, not_false_eq_true, and_self]
    congr 1
    omega
  · rename_i hpos
    rw [decimalValue_of_digits _ hne hd, hv]
    congr 1
    omega

theorem parseUintLoop_of_digits (maxVal : Nat) (ds : GoString) (n : Nat)
    (hd : allDigits ds = true) (hn : n ≤ maxVal) :
    parseUintLoop maxVal ds n =
      if digitsValue ds n ≤ maxVal then (digitsValue ds n, none)
      else (maxVal, some NumErrKind.errRange) := by
  induction ds generalizing n with
  | nil => simp [parseUintLoop, digitsValue, hn]
  | cons c cs ih =>
    have hc : 48 ≤ c.toNat ∧ c.toNat ≤ 57 := by
      simpa [allDigits] using (by simpa [allDigits] using hd : _ ∧ _).1
    have hcs : allDigits cs = true := by
      have h := hd
      simp only [allDigits, List.all_cons, Bool.and_eq_true] at h
      simpa [allDigits] using h.2
    simp only [parseUintLoop, hc, and_self, if_true, digitsValue]
    by_cases hov : maxVal < n * 10 + (c.toNat - 48)
    · have hge := le_digitsValue cs (n * 10 + (c.toNat - 48))
      have hnot : ¬ digitsValue cs (n * 10 + (c.toNat - 48)) ≤ maxVal := by omega
      simp [hov, hnot]
    · simp only [hov, if_false]
      exact ih _ hcs (by omega)

theorem parseUintLoop_of_not_digits (maxVal : Nat) (ds : GoString) (n : Nat)
    (hd : allDigits ds = false) :
    parseUintLoop maxVal ds n = (0, some NumErrKind.errSyntax) ∨
      parseUintLoop maxVal ds n = (maxVal, some NumErrKind.errRange) := by
  induction ds generalizing n with
  | nil => simp [allDigits] at hd
  | cons c cs ih =>
    by_cases hc : 48 ≤ c.toNat ∧ c.toNat ≤ 57
    · have hcs : allDigits cs = false := by
        have h := hd
        simp only [allDigits, List.all_cons, hc, and_self, decide_True, Bool.true_and] at h
        simpa [allDigits] using h
      simp only [parseUintLoop, hc, and_self, if_true]
      by_cases hov : maxVal < n * 10 + (c.toNat - 48)
      · simp [hov]
      · simp only [hov, if_false]
        exact ih _ hcs
    · left
      simp [parseUintLoop, hc]

/-- The outcome of `parseInt` on a sign-and-digits string: the denoted integer
when it fits the signed type of `w` bits, a range error with the nearest bound
otherwise. -/
theorem parseInt_of_digits (w : Nat) (hw : 2 ≤ w) (c : UInt8) (cs ds : GoString)
    (hds : ds = if c = 43 ∨ c = 45 then cs else c :: cs) (hne : ds ≠ [])
    (hd : allDigits ds = true) :
    parseInt w (c :: cs) =
      if c = 45 then
        (if 2 ^ (w - 1) < digitsValue ds 0 then
          (-((2 ^ (w - 1) : Nat) : Int), some NumErrKind.errRange)
        else (-(digitsValue ds 0 : Int), none))
      else
        (if 2 ^ (w - 1) ≤ digitsValue ds 0 then
          (((2 ^ (w - 1) : Nat) : Int) - 1, some NumErrKind.errRange)
        else ((digitsValue ds 0 : Int), none)) := by
  have hpow : 2 ^ w = 2 * 2 ^ (w - 1) := by
    obtain ⟨k, rfl⟩ : ∃ k, w = k + 1 := ⟨w - 1, by omega⟩
    simp [pow_succ, Nat.mul_comm]
  have hbig : 2 ≤ 2 ^ (w - 1) := by
    obtain ⟨k, rfl⟩ : ∃ k, w = k + 2 := ⟨w - 2, by omega⟩
    have : 1 ≤ 2 ^ k := Nat.one_le_two_pow
    simp only [Nat.add_sub_cancel, pow_succ] at *
    omega
  have hu : parseUint w ds =
      if digitsValue ds 0 ≤ 2 ^ w - 1 then (digitsValue ds 0, none)
      else (2 ^ w - 1, some NumErrKind.errRange) := by
    simp only [parseUint, hne, if_false]
    exact parseUintLoop_of_digits _ ds 0 hd (Nat.zero_le _)
  simp only [parseInt, ← hds, hu]
  by_cases hfit : digitsValue ds 0 ≤ 2 ^ w - 1
  · simp only [hfit, if_true]
    by_cases hneg : c = 45
    · by_cases hcut : 2 ^ (w - 1) < digitsValue ds 0
      · simp [hneg, hcut]
      · simp [hneg, hcut]
    · by_cases hcut : 2 ^ (w - 1) ≤ digitsValue ds 0
      · simp [hneg, hcut]
      · simp [hneg, hcut]
  · simp only [hfit, if_false]
    have h1 : 2 ^ (w - 1) ≤ 2 ^ w - 1 := by omega
    have h2 : 2 ^ (w - 1) < 2 ^ w - 1 := by omega
    have h3 : 2 ^ (w - 1) < digitsValue ds 0 := by omega
    by_cases hneg : c = 45
    · simp [hneg, h2, h3]
    · simp [hneg, h1, h3.le]

theorem decimalValue_cons (c : UInt8) (cs ds : GoString)
    (hds : ds = if c = 43 ∨ c = 45 then cs else c :: cs) :
    decimalValue (c :: cs) =
      if ds ≠ [] ∧ allDigits ds = true then
        some (if c = 45 then -(digitsValue ds 0 : Int) else (digitsValue ds 0 : Int))
      else none := by
  subst hds
  rfl

theorem parseInt_of_malformed (w : Nat) (hw : 2 ≤ w) (s : GoString)
    (h : decimalValue s = none) :
    parseInt w s = (0, some NumErrKind.errSyntax) ∨
      ∃ v, parseInt w s = (v, some NumErrKind.errRange) := by
  match s with
  | [] => left; rfl
  | c :: cs =>
    obtain ⟨ds, hds⟩ : ∃ ds, ds = if c = 43 ∨ c = 45 then cs else c :: cs := ⟨_, rfl⟩
    rw [decimalValue_cons c cs ds hds] at h
    by_cases hne : ds = []
    · left
      simp [parseInt, ← hds, hne, parseUint]
    · have hd : allDigits ds = false := by
        by_contra hcon
        simp [hne, hcon] at h
      have hbig : 2 ^ (w - 1) < 2 ^ w - 1 := by
        obtain ⟨k, rfl⟩ : ∃ k, w = k + 2 := ⟨w - 2, by omega⟩
        have h0 : 1 ≤ 2 ^ k := Nat.one_le_two_pow
        have e1 : k + 2 - 1 = k + 1 := by omega
        have e2 : 2 ^ (k + 1) = 2 * 2 ^ k := by ring
        have e3 : 2 ^ (k + 2) = 4 * 2 ^ k := by ring
        rw [e1, e2, e3]
        omega
      rcases parseUintLoop_of_not_digits (2 ^ w - 1) ds 0 hd with hl | hl
      · left
        simp [parseInt, parseUint, ← hds, hne, hl]
      · right
        simp only [parseInt, parseUint, ← hds, hne, if_false, hl]
        by_cases hneg : c = 45
        · exact ⟨-((2 ^ (w - 1) : Nat) : Int), by simp [hneg, hbig]⟩
        · exact ⟨((2 ^ (w - 1) : Nat) : Int) - 1, by simp [hneg, hbig.le]⟩

theorem atoi_of_decimal (w : Nat) (hw : 2 ≤ w) (s : GoString) (n : Int)
    (h : decimalValue s = some n) (hlo : -((2 ^ (w - 1) : Nat) : Int) ≤ n)
    (hhi : n < ((2 ^ (w - 1) : Nat) : Int)) :
    atoi w s = Outcome.ret n none := by
  match s with
  | [] => simp [decimalValue] at h
  | c :: cs =>
    obtain ⟨ds, hds⟩ : ∃ ds, ds = if c = 43 ∨ c = 45 then cs else c :: cs := ⟨_, rfl⟩
    rw [decimalValue_cons c cs ds hds] at h
    by_cases hwf : ds ≠ [] ∧ allDigits ds = true
    · rw [if_pos hwf] at h
      injection h with h
      have hp := parseInt_of_digits w hw c cs ds hds hwf.1 hwf.2
      unfold atoi
      rw [hp]
      generalize 2 ^ (w - 1) = P at *
      by_cases hneg : c = 45
      · rw [if_pos hneg] at h ⊢
        have hcut : ¬ P < digitsValue ds 0 := by omega
        rw [if_neg hcut, h]
      · rw [if_neg hneg] at h ⊢
        have hcut : ¬ P ≤ digitsValue ds 0 := by omega
        rw [if_neg hcut, h]
    · rw [if_neg hwf] at h
      cases h

theorem atoi_of_malformed (w : Nat) (hw : 2 ≤ w) (s : GoString) (h : decimalValue s = none) :
    atoi w s = Outcome.ret 0 (some (GoError.numError s NumErrKind.errSyntax)) ∨
      ∃ v, atoi w s = Outcome.ret v (some (GoError.numError s NumErrKind.errRange)) := by
  rcases parseInt_of_malformed w hw s h with hp | ⟨v, hp⟩
  · left; simp [atoi, hp]
  · right; exact ⟨v, by simp [atoi, hp]⟩

theorem decimalValue_of_atoi (w : Nat) (hw : 2 ≤ w) (s : GoString) (n : Int)
    (h : atoi w s = Outcome.ret n none) : decimalValue s = some n := by
  match s with
  | [] => simp [atoi, parseInt] at h
  | c :: cs =>
    obtain ⟨ds, hds⟩ : ∃ ds, ds = if c = 43 ∨ c = 45 then cs else c :: cs := ⟨_, rfl⟩
    rw [decimalValue_cons c cs ds hds]
    by_cases hwf : ds ≠ [] ∧ allDigits ds = true
    · have hp := parseInt_of_digits w hw c cs ds hds hwf.1 hwf.2
      rw [if_pos hwf]
      unfold atoi at h
      rw [hp] at h
      split_ifs at h with h1 h2 h2 <;> simp_all
    · have hnone : decimalValue (c :: cs) = none := by
        rw [decimalValue_cons c cs ds hds, if_neg hwf]
      rcases atoi_of_malformed w hw _ hnone with hp | ⟨v, hp⟩ <;> rw [hp] at h <;> cases h

/-! ## Lemmas on getGatewayIP -/

theorem pickGateway_of_gateway (d : IPAMData) (rest : List (Option IPAMData)) (g : GoString)
    (hg : d.Gateway ≠ []) : pickGateway (some d :: rest) g = d.Gateway := by
  simp [pickGateway, hg]

theorem getGatewayIP_of_select (r : CreateNetworkRequest) (h : selectGateway r ≠ []) :
    getGatewayIP r = splitGateway (selectGateway r) := by
  simp [getGatewayIP, h]

theorem splitGateway_of_not_mem (g : GoString) (hg : g ≠ []) (hs : slash ∉ g) :
    splitGateway g = Outcome.panic (Panic.indexOutOfRange 1 1) := by
  simp [splitGateway, stringsSplit_of_not_mem slash g hs, hg]

theorem getGatewayIP_panics_of_no_slash (r : CreateNetworkRequest)
    (hne : selectGateway r ≠ []) (hs : slash ∉ selectGateway r) :
    getGatewayIP r = Outcome.panic (Panic.indexOutOfRange 1 1) := by
  rw [getGatewayIP_of_select r hne, splitGateway_of_not_mem _ hne hs]

theorem splitGateway_of_parts (a b : GoString) (ha : slash ∉ a) (hb : slash ∉ b) :
    splitGateway (a ++ slash :: b) =
      if a = [] ∨ b = [] then
        Outcome.ret ([], []) (some (GoError.errorf "Cannot split gateway IP address" []))
      else Outcome.ret (a, b) none := by
  simp [splitGateway, stringsSplit_append_sep slash a b ha, stringsSplit_of_not_mem slash b hb]

theorem splitGateway_ne_noGateway (g : GoString) :
    splitGateway g ≠ Outcome.ret ([], []) (some (GoError.errorf "No gateway IP found" [])) := by
  unfold splitGateway
  split
  · simp
  · split <;> simp
  · split
    · simp
    · rename_i h
      simp only [not_or] at h
      intro he
      injection he with h1 h2
      injection h1 with h3 h4
      exact h.1 h3

/-- A successful split: the two results are the first two pieces, both
non-empty and free of `/`, and the string is either exactly `ip/prefix` or
`ip/prefix/` followed by more text. -/
theorem splitGateway_ok_inv (g ip pfx : GoString)
    (h : splitGateway g = Outcome.ret (ip, pfx) none) :
    ip ≠ [] ∧ pfx ≠ [] ∧ slash ∉ ip ∧ slash ∉ pfx ∧
      (g = ip ++ slash :: pfx ∨ ∃ t, g = ip ++ slash :: (pfx ++ slash :: t)) := by
  unfold splitGateway at h
  cases hsp : stringsSplit slash g with
  | nil => exact absurd hsp (stringsSplit_ne_nil slash g)
  | cons p0 ps =>
    cases ps with
    | nil =>
      rw [hsp] at h
      simp only at h
      by_cases hp : p0 = []
      · rw [if_pos hp] at h
        injection h with _ h2
        cases h2
      · rw [if_neg hp] at h
        cases h
    | cons p1 rest =>
      rw [hsp] at h
      simp only at h
      by_cases hemp : p0 = [] ∨ p1 = []
      · rw [if_pos hemp] at h
        injection h with _ h2
        cases h2
      rw [if_neg hemp] at h
      simp only [not_or] at hemp
      injection h with h1 h2
      injection h1 with h3 h4
      subst h3
      subst h4
      obtain ⟨hs0, _, hrest0⟩ := stringsSplit_cons_inv slash g p0 (p1 :: rest) hsp
      obtain ⟨t, hg, ht⟩ := hrest0 (by simp)
      obtain ⟨hs1, hone, hmore⟩ := stringsSplit_cons_inv slash t p1 rest ht
      refine ⟨hemp.1, hemp.2, hs0, hs1, ?_⟩
      by_cases hr : rest = []
      · left
        rw [hg, hone hr]
      · right
        obtain ⟨t2, ht2, _⟩ := hmore hr
        exact ⟨t2, by rw [hg, ht2]⟩

/-! ## Lemmas on the option resolver -/

theorem getGenericOption_of_string (c : Consts) (r : CreateNetworkRequest) (m : GoMap)
    (opt dflt s : GoString) (hm : r.Options.index c.genericOptionsKey = GoValue.map m)
    (hs : m.lookup opt = some (GoValue.string s)) :
    getGenericOption c r opt dflt = Outcome.ret s none := by
  unfold getGenericOption getGenericOptions
  rw [hm]
  simp [GoMap.index, hs]

theorem getGenericOption_of_absent (c : Consts) (r : CreateNetworkRequest) (m : GoMap)
    (opt dflt : GoString) (hm : r.Options.index c.genericOptionsKey = GoValue.map m)
    (hs : m.lookup opt = none) :
    getGenericOption c r opt dflt = Outcome.ret dflt none := by
  unfold getGenericOption getGenericOptions
  rw [hm]
  simp [GoMap.index, hs]

theorem getGenericOption_ok_inv (c : Consts) (r : CreateNetworkRequest) (opt dflt v : GoString)
    (h : getGenericOption c r opt dflt = Outcome.ret v none) :
    ∃ m : GoMap, r.Options.index c.genericOptionsKey = GoValue.map m ∧
      ((GoMap.index m opt = GoValue.nil ∧ v = dflt) ∨ GoMap.index m opt = GoValue.string v) := by
  unfold getGenericOption getGenericOptions at h
  cases hidx : r.Options.index c.genericOptionsKey with
  | map m =>
    refine ⟨m, rfl, ?_⟩
    rw [hidx] at h
    simp only at h
    cases hopt : GoMap.index m opt with
    | nil =>
      rw [hopt] at h
      simp only at h
      injection h with h1 h2
      exact Or.inl ⟨rfl, h1.symm⟩
    | string value =>
      rw [hopt] at h
      simp only at h
      injection h with h1 h2
      rw [h1]
      exact Or.inr rfl
    | bool b => rw [hopt] at h; simp at h
    | float64 b => rw [hopt] at h; simp at h
    | slice xs => rw [hopt] at h; simp at h
    | map m2 => rw [hopt] at h; simp at h
  | nil => rw [hidx] at h; simp at h
  | bool b => rw [hidx] at h; simp at h
  | float64 b => rw [hidx] at h; simp at h
  | string b => rw [hidx] at h; simp at h
  | slice xs => rw [hidx] at h; simp at h

theorem intSize_ge_two (c : Consts) (hc : c.intSize = 32 ∨ c.intSize = 64) : 2 ≤ c.intSize := by
  omega

/-! ## Lemmas on the link functions -/

theorem lookupRetry_first_ok (k : Kernel) (name : GoString) (w : World) (link : Link)
    (h0 : k.linkByName w.lookups name = Except.ok link) :
    lookupRetry k name 2 none none w =
      (some link, none,
        { host := w.host, lookups := w.lookups + 1,
          trace := w.trace ++ [Event.linkByName name] }) := by
  simp [lookupRetry, netlinkLinkByName, h0]

theorem lookupRetry_second_ok (k : Kernel) (name : GoString) (w : World) (e1 : GoError)
    (link : Link) (h0 : k.linkByName w.lookups name = Except.error e1)
    (h1 : k.linkByName (w.lookups + 1) name = Except.ok link) :
    lookupRetry k name 2 none none w =
      (some link, none,
        { host := w.host, lookups := w.lookups + 2,
          trace := w.trace ++
            [Event.linkByName name,
             Event.debugf "error retrieving new bridge netlink link [ %s ]... retrying"
               [LogArg.string name],
             Event.sleep (2 * second), Event.linkByName name] }) := by
  simp [lookupRetry, netlinkLinkByName, World.emit, h0, h1]

theorem lookupRetry_both_fail (k : Kernel) (name : GoString) (w : World) (e1 e2 : GoError)
    (h0 : k.linkByName w.lookups name = Except.error e1)
    (h1 : k.linkByName (w.lookups + 1) name = Except.error e2) :
    lookupRetry k name 2 none none w =
      (none, some e2,
        { host := w.host, lookups := w.lookups + 2,
          trace := w.trace ++
            [Event.linkByName name,
             Event.debugf "error retrieving new bridge netlink link [ %s ]... retrying"
               [LogArg.string name],
             Event.sleep (2 * second), Event.linkByName name,
             Event.debugf "error retrieving new bridge netlink link [ %s ]... retrying"
               [LogArg.string name],
             Event.sleep (2 * second)] }) := by
  simp [lookupRetry, netlinkLinkByName, World.emit, h0, h1]

theorem netlinkAddrAdd_trace (k : Kernel) (link : Link) (addr : Addr) (w : World) :
    (netlinkAddrAdd k link addr w).2.trace = w.trace ++ [Event.addrAdd link addr] ∧
      (netlinkAddrAdd k link addr w).2.lookups = w.lookups := by
  unfold netlinkAddrAdd
  split <;> simp [World.emit]

theorem parseAndAdd_of_error (k : Kernel) (iface : Option Link) (rawIP : GoString) (w : World)
    (e : GoError) (hp : k.parseIPNet rawIP = Except.error e) :
    parseAndAdd k iface rawIP w =
      (Outcome.ret () (some e),
        { host := w.host, lookups := w.lookups, trace := w.trace ++ [Event.parseIPNet rawIP] }) := by
  simp [parseAndAdd, netlinkParseIPNet, World.emit, hp]

theorem parseAndAdd_of_ok (k : Kernel) (link : Link) (rawIP : GoString) (w : World)
    (ipNet : IPNet) (hp : k.parseIPNet rawIP = Except.ok ipNet) :
    (parseAndAdd k (some link) rawIP w).2.trace =
        w.trace ++ [Event.parseIPNet rawIP,
          Event.addrAdd link { IPNet := ipNet, Label := [], Flags := 0, Scope := 0 }] ∧
      (parseAndAdd k (some link) rawIP w).2.lookups = w.lookups := by
  simp [parseAndAdd, netlinkParseIPNet, World.emit, hp, netlinkAddrAdd_trace]

/-- What `parseAndAdd` adds to the record: the parse, and after a successful
parse one `AddrAdd` on the given link with the parsed address. -/
theorem parseAndAdd_trace (k : Kernel) (link : Link) (rawIP : GoString) (w : World) :
    (parseAndAdd k (some link) rawIP w).2.lookups = w.lookups ∧
    ((∃ e, k.parseIPNet rawIP = Except.error e ∧
        (parseAndAdd k (some link) rawIP w).1 = Outcome.ret () (some e) ∧
        (parseAndAdd k (some link) rawIP w).2.host = w.host ∧
        (parseAndAdd k (some link) rawIP w).2.trace = w.trace ++ [Event.parseIPNet rawIP]) ∨
     (∃ ipNet, k.parseIPNet rawIP = Except.ok ipNet ∧
        (parseAndAdd k (some link) rawIP w).2.trace =
          w.trace ++ [Event.parseIPNet rawIP,
            Event.addrAdd link { IPNet := ipNet, Label := [], Flags := 0, Scope := 0 }])) := by
  cases hp : k.parseIPNet rawIP with
  | error e =>
    rw [parseAndAdd_of_error k _ rawIP w e hp]
    exact ⟨rfl, Or.inl ⟨e, rfl, rfl, rfl, rfl⟩⟩
  | ok ipNet =>
    have h := parseAndAdd_of_ok k link rawIP w ipNet hp
    exact ⟨h.2, Or.inr ⟨ipNet, rfl, h.1⟩⟩

theorem setInterfaceIP_of_lookup (k : Kernel) (name rawIP : GoString) (w w1 : World)
    (iface : Option Link) (h : lookupRetry k name 2 none none w = (iface, none, w1)) :
    setInterfaceIP k name rawIP w = parseAndAdd k iface rawIP w1 := by
  simp [setInterfaceIP, h]

theorem setInterfaceIP_both_fail (k : Kernel) (name rawIP : GoString) (w : World)
    (e1 e2 : GoError) (h0 : k.linkByName w.lookups name = Except.error e1)
    (h1 : k.linkByName (w.lookups + 1) name = Except.error e2) :
    setInterfaceIP k name rawIP w =
      (Outcome.ret ()
        (some (GoError.errorfErr
          "Abandoning retrieving the new bridge link from netlink, Run [ ip link ] to troubleshoot the error: %v"
          [] e2)),
        { host := w.host, lookups := w.lookups + 2,
          trace := w.trace ++
            [Event.linkByName name,
             Event.debugf "error retrieving new bridge netlink link [ %s ]... retrying"
               [LogArg.string name],
             Event.sleep (2 * second), Event.linkByName name,
             Event.debugf "error retrieving new bridge netlink link [ %s ]... retrying"
               [LogArg.string name],
             Event.sleep (2 * second)] }) := by
  simp [setInterfaceIP, lookupRetry_both_fail k name w e1 e2 h0 h1]

theorem eventsSince_of_append (w w1 : World) (evs : List Event)
    (h : w1.trace = w.trace ++ evs) : eventsSince w w1 = evs := by
  simp [eventsSince, h]

/-- The retry of `setInterfaceIP` in its three runs: the first lookup
succeeds, the second one does, or both fail. -/
theorem setInterfaceIP_runs (k : Kernel) (name rawIP : GoString) (w : World) :
    (∃ link, k.linkByName w.lookups name = Except.ok link ∧
        firstVisible k name w.lookups = some link ∧
        setInterfaceIP k name rawIP w =
          parseAndAdd k (some link) rawIP
            { host := w.host, lookups := w.lookups + 1,
              trace := w.trace ++ [Event.linkByName name] }) ∨
    (∃ e1 link, k.linkByName w.lookups name = Except.error e1 ∧
        k.linkByName (w.lookups + 1) name = Except.ok link ∧
        firstVisible k name w.lookups = some link ∧
        setInterfaceIP k name rawIP w =
          parseAndAdd k (some link) rawIP
            { host := w.host, lookups := w.lookups + 2,
              trace := w.trace ++
                [Event.linkByName name,
                 Event.debugf "error retrieving new bridge netlink link [ %s ]... retrying"
                   [LogArg.string name],
                 Event.sleep (2 * second), Event.linkByName name] }) ∨
    (∃ e1 e2, k.linkByName w.lookups name = Except.error e1 ∧
        k.linkByName (w.lookups + 1) name = Except.error e2 ∧
        firstVisible k name w.lookups = none) := by
  cases h0 : k.linkByName w.lookups name with
  | ok link =>
    left
    exact ⟨link, rfl, by simp [firstVisible, h0],
      setInterfaceIP_of_lookup k name rawIP w _ _ (lookupRetry_first_ok k name w link h0)⟩
  | error e1 =>
    cases h1 : k.linkByName (w.lookups + 1) name with
    | ok link =>
      right; left
      exact ⟨e1, link, rfl, rfl, by simp [firstVisible, h0, h1],
        setInterfaceIP_of_lookup k name rawIP w _ _ (lookupRetry_second_ok k name w e1 link h0 h1)⟩
    | error e2 =>
      right; right
      exact ⟨e1, e2, rfl, rfl, by simp [firstVisible, h0, h1]⟩

/-- What a call of `setInterfaceIP` adds to the record, by run: `pre` are the
events of the retry, then come the parse and, after a successful parse, one
`AddrAdd`. -/
theorem setInterfaceIP_events (k : Kernel) (name rawIP : GoString) (w : World) :
    (∃ e1 e2, k.linkByName w.lookups name = Except.error e1 ∧
        k.linkByName (w.lookups + 1) name = Except.error e2 ∧
        firstVisible k name w.lookups = none ∧
        (setInterfaceIP k name rawIP w).1 =
          Outcome.ret ()
            (some (GoError.errorfErr
              "Abandoning retrieving the new bridge link from netlink, Run [ ip link ] to troubleshoot the error: %v"
              [] e2)) ∧
        (setInterfaceIP k name rawIP w).2.host = w.host ∧
        eventsSince w (setInterfaceIP k name rawIP w).2 =
          [Event.linkByName name,
           Event.debugf "error retrieving new bridge netlink link [ %s ]... retrying"
             [LogArg.string name],
           Event.sleep (2 * second), Event.linkByName name,
           Event.debugf "error retrieving new bridge netlink link [ %s ]... retrying"
             [LogArg.string name],
           Event.sleep (2 * second)]) ∨
    (∃ (link : Link) (pre : List Event), firstVisible k name w.lookups = some link ∧
        ((k.linkByName w.lookups name = Except.ok link ∧ pre = [Event.linkByName name]) ∨
         (∃ e1, k.linkByName w.lookups name = Except.error e1 ∧
            pre = [Event.linkByName name,
              Event.debugf "error retrieving new bridge netlink link [ %s ]... retrying"
                [LogArg.string name],
              Event.sleep (2 * second), Event.linkByName name])) ∧
        ((∃ e, k.parseIPNet rawIP = Except.error e ∧
            (setInterfaceIP k name rawIP w).1 = Outcome.ret () (some e) ∧
            (setInterfaceIP k name rawIP w).2.host = w.host ∧
            eventsSince w (setInterfaceIP k name rawIP w).2 = pre ++ [Event.parseIPNet rawIP]) ∨
         (∃ ipNet, k.parseIPNet rawIP = Except.ok ipNet ∧
            eventsSince w (setInterfaceIP k name rawIP w).2 =
              pre ++ [Event.parseIPNet rawIP,
                Event.addrAdd link { IPNet := ipNet, Label := [], Flags := 0, Scope := 0 }]))) := by
  rcases setInterfaceIP_runs k name rawIP w with ⟨link, h0, hv, hrun⟩ | ⟨e1, link, h0, h1, hv, hrun⟩ |
      ⟨e1, e2, h0, h1, hv⟩
  · right
    refine ⟨link, [Event.linkByName name], hv, Or.inl ⟨h0, rfl⟩, ?_⟩
    rw [hrun]
    rcases (parseAndAdd_trace k link rawIP _).2 with ⟨e, hp, hr, hh, ht⟩ | ⟨n, hp, ht⟩
    · exact Or.inl ⟨e, hp, hr, hh, eventsSince_of_append _ _ _ (by rw [ht]; simp)⟩
    · exact Or.inr ⟨n, hp, eventsSince_of_append _ _ _ (by rw [ht]; simp)⟩
  · right
    refine ⟨link, _, hv, Or.inr ⟨e1, h0, rfl⟩, ?_⟩
    rw [hrun]
    rcases (parseAndAdd_trace k link rawIP _).2 with ⟨e, hp, hr, hh, ht⟩ | ⟨n, hp, ht⟩
    · exact Or.inl ⟨e, hp, hr, hh, eventsSince_of_append _ _ _ (by rw [ht]; simp)⟩
    · exact Or.inr ⟨n, hp, eventsSince_of_append _ _ _ (by rw [ht]; simp)⟩
  · left
    rw [setInterfaceIP_both_fail k name rawIP w e1 e2 h0 h1]
    exact ⟨e1, e2, h0, h1, hv, rfl, rfl, eventsSince_of_append _ _ _ rfl⟩

theorem interfaceUp_of_lookup_error (k : Kernel) (name : GoString) (w : World) (e : GoError)
    (h0 : k.linkByName w.lookups name = Except.error e) :
    interfaceUp k name w =
      (Outcome.panic Panic.nilDereference,
        { host := w.host, lookups := w.lookups + 1,
          trace := w.trace ++ [Event.linkByName name] }) := by
  simp [interfaceUp, netlinkLinkByName, h0]

theorem interfaceUp_of_lookup_ok (k : Kernel) (name : GoString) (w : World) (link : Link)
    (h0 : k.linkByName w.lookups name = Except.ok link) :
    (interfaceUp k name w).1 = Outcome.ret () (k.linkSetUpError w.host link) := by
  simp only [interfaceUp, netlinkLinkByName, h0, netlinkLinkSetUp]
  cases k.linkSetUpError w.host link <;> rfl

/-! ## Claims -/

/-- C1: when the first IPv4 pool entry exists and carries a non-empty gateway
`g4`, `getGatewayIP` gives the result of splitting `g4`, and the request's
`IPv6Data` has no influence on the result. -/
theorem getGatewayIP_ipv4_precedence (r : CreateNetworkRequest) (d4 : IPAMData)
    (rest : List (Option IPAMData)) (h4 : r.IPv4Data = some d4 :: rest)
    (hg : d4.Gateway ≠ []) :
    getGatewayIP r = splitGateway d4.Gateway ∧
      ∀ v6 : List (Option IPAMData), getGatewayIP { r with IPv6Data := v6 } = getGatewayIP r := by
  have key : ∀ r' : CreateNetworkRequest, r'.IPv4Data = some d4 :: rest →
      getGatewayIP r' = splitGateway d4.Gateway := by
    intro r' h'
    have hsel : selectGateway r' = d4.Gateway := by
      simp [selectGateway, h', pickGateway_of_gateway d4 rest _ hg]
    rw [getGatewayIP_of_select r' (by rw [hsel]; exact hg), hsel]
  refine ⟨key r h4, fun v6 => ?_⟩
  rw [key r h4]
  exact key _ h4

/-- Witness of C1: IPv6 gateway `fd00::1/64` and IPv4 gateway `10.0.0.1/24` give `("10.0.0.1", "24")`. -/
theorem getGatewayIP_ipv4_precedence_witness :
    (str "10.0.0.1/24" ≠ []) ∧
    getGatewayIP (mkRequest (str "abcde12345") [] [gatewayOnly (str "10.0.0.1/24")]
        [gatewayOnly (str "fd00::1/64")]) = Outcome.ret (str "10.0.0.1", str "24") none ∧
    ∀ v6 : List (Option IPAMData),
      getGatewayIP (mkRequest (str "abcde12345") [] [gatewayOnly (str "10.0.0.1/24")] v6) =
        Outcome.ret (str "10.0.0.1", str "24") none :=
  have h := getGatewayIP_ipv4_precedence
    (mkRequest (str "abcde12345") [] [gatewayOnly (str "10.0.0.1/24")]
      [gatewayOnly (str "fd00::1/64")])
    { AddressSpace := [], Pool := [], Gateway := str "10.0.0.1/24", AuxAddresses := [] }
    [] rfl (by decide)
  ⟨by decide, h.1.trans rfl, fun v6 => (h.2 v6).trans (h.1.trans rfl)⟩

/-- C2: `getGatewayIP` fails with the error "No gateway IP found" exactly when
neither pool offers a gateway in its first entry (the entry is missing, nil or
has an empty `Gateway`); later entries are never looked at. -/
theorem getGatewayIP_noGateway_iff (r : CreateNetworkRequest) :
    getGatewayIP r = Outcome.ret ([], []) (some (GoError.errorf "No gateway IP found" [])) ↔
      (r.IPv4Data.head? = none ∨ r.IPv4Data.head? = some none ∨
          ∃ d, r.IPv4Data.head? = some (some d) ∧ d.Gateway = []) ∧
      (r.IPv6Data.head? = none ∨ r.IPv6Data.head? = some none ∨
          ∃ d, r.IPv6Data.head? = some (some d) ∧ d.Gateway = []) := by
  have pick : ∀ (data : List (Option IPAMData)) (g : GoString),
      pickGateway data g = [] ↔
        g = [] ∧ (data.head? = none ∨ data.head? = some none ∨
          ∃ d, data.head? = some (some d) ∧ d.Gateway = []) := by
    intro data g
    match data with
    | [] => simp [pickGateway]
    | none :: _ => simp [pickGateway]
    | some d :: _ =>
      by_cases hd : d.Gateway = []
      · simp [pickGateway, hd]
      · simp [pickGateway, hd]
  constructor
  · intro h
    by_cases hs : selectGateway r = []
    · have h4 := (pick r.IPv4Data _).mp hs
      exact ⟨h4.2, ((pick r.IPv6Data _).mp h4.1).2⟩
    · rw [getGatewayIP_of_select r hs] at h
      exact absurd h (splitGateway_ne_noGateway _)
  · intro h
    have hs : selectGateway r = [] :=
      (pick r.IPv4Data _).mpr ⟨(pick r.IPv6Data _).mpr ⟨rfl, h.2⟩, h.1⟩
    simp [getGatewayIP, hs]

/-- C3, the code at the failing input: with the IPv4 gateway `10.0.0.1` (no
`/`), `getGatewayIP` does not return the error "Cannot split gateway IP
address": indexing `parts[1]` panics. -/
theorem getGatewayIP_no_slash_panics :
    getGatewayIP (mkRequest (str "abcde12345") [] [gatewayOnly (str "10.0.0.1")] []) =
      Outcome.panic (Panic.indexOutOfRange 1 1) := by
  rfl

/-- C4: when the selected gateway string is `a ++ "/" ++ b` with `a` and `b`
free of `/`, `getGatewayIP` returns the pair of strings `(a, b)` without error
if both are non-empty, and fails with "Cannot split gateway IP address" if one
of them is empty. -/
theorem getGatewayIP_split (r : CreateNetworkRequest) (a b : GoString)
    (hsel : selectGateway r = a ++ slash :: b) (ha : slash ∉ a) (hb : slash ∉ b) :
    (a ≠ [] ∧ b ≠ [] → getGatewayIP r = Outcome.ret (a, b) none) ∧
    (a = [] ∨ b = [] → getGatewayIP r =
      Outcome.ret ([], []) (some (GoError.errorf "Cannot split gateway IP address" []))) := by
  have hne : selectGateway r ≠ [] := by rw [hsel]; simp
  rw [getGatewayIP_of_select r hne, hsel, splitGateway_of_parts a b ha hb]
  constructor
  · intro h
    simp [h.1, h.2]
  · intro h
    simp [h]

/-- Witness of C4: `IPv4Data [{Gateway: "172.18.0.1/16"}]` gives `("172.18.0.1", "16")`. -/
theorem getGatewayIP_split_witness :
    selectGateway (mkRequest (str "abcde12345") [] [gatewayOnly (str "172.18.0.1/16")] []) =
        str "172.18.0.1" ++ slash :: str "16" ∧
      slash ∉ str "172.18.0.1" ∧ slash ∉ str "16" ∧
      getGatewayIP (mkRequest (str "abcde12345") [] [gatewayOnly (str "172.18.0.1/16")] []) =
        Outcome.ret (str "172.18.0.1", str "16") none :=
  ⟨rfl, by decide, by decide,
    (getGatewayIP_split (mkRequest (str "abcde12345") [] [gatewayOnly (str "172.18.0.1/16")] [])
      (str "172.18.0.1") (str "16") rfl (by decide) (by decide)).1 ⟨by decide, by decide⟩⟩

/-- C5 as stated fails at the empty string: with the bridge-name option bound
to `""` the result is not `""` but the default name, which follows the
`NetworkID`. -/
theorem getBridgeName_empty_override :
    List.lookup sampleConsts.bridgeNameOption [(str "bridge-name", GoValue.string [])] =
        some (GoValue.string []) ∧
      getBridgeName sampleConsts
          (mkRequest (str "abcde12345") [(str "bridge-name", GoValue.string [])] [] []) =
        Outcome.ret (str "torbr-abcde") none ∧
      getBridgeName sampleConsts
          (mkRequest (str "vwxyz12345") [(str "bridge-name", GoValue.string [])] [] []) =
        Outcome.ret (str "torbr-vwxyz") none ∧
      str "torbr-abcde" ≠ [] :=
  ⟨rfl, rfl, rfl, by decide⟩

/-- C5, amended: when the generic options bind the bridge-name option to a
non-empty string `s`, `getBridgeName` returns exactly `s` with no error,
whatever the `NetworkID` is. -/
theorem getBridgeName_override (c : Consts) (r : CreateNetworkRequest) (m : GoMap)
    (s : GoString) (hm : r.Options.index c.genericOptionsKey = GoValue.map m)
    (hs : m.lookup c.bridgeNameOption = some (GoValue.string s)) (hne : s ≠ []) :
    getBridgeName c r = Outcome.ret s none ∧
      ∀ id : GoString, getBridgeName c { r with NetworkID := id } = Outcome.ret s none := by
  have key : ∀ r' : CreateNetworkRequest, r'.Options = r.Options →
      getBridgeName c r' = Outcome.ret s none := by
    intro r' h'
    have hm' : r'.Options.index c.genericOptionsKey = GoValue.map m := by rw [h']; exact hm
    simp [getBridgeName, getGenericOption_of_string c r' m _ _ s hm' hs, hne]
  exact ⟨key r rfl, fun id => key _ rfl⟩

/-- Witness of C5, amended: the override `br0` is returned for a short `NetworkID` too. -/
theorem getBridgeName_override_witness :
    str "br0" ≠ [] ∧
      getBridgeName sampleConsts
          (mkRequest (str "abc") [(str "bridge-name", GoValue.string (str "br0"))] [] []) =
        Outcome.ret (str "br0") none :=
  ⟨by decide,
    (getBridgeName_override sampleConsts
      (mkRequest (str "abc") [(str "bridge-name", GoValue.string (str "br0"))] [] [])
      [(str "bridge-name", GoValue.string (str "br0"))] (str "br0") rfl rfl (by decide)).1⟩

/-- C6 as stated fails for a short `NetworkID`: without a bridge-name option
and with the 3-byte `NetworkID` `abc`, `id[:5]` panics and no name is returned. -/
theorem getBridgeName_short_id_panics :
    List.lookup sampleConsts.bridgeNameOption ([] : GoMap) = none ∧
      getBridgeName sampleConsts (mkRequest (str "abc") [] [] []) =
        Outcome.panic (Panic.sliceOutOfRange 5 3) :=
  ⟨rfl, rfl⟩

/-- C6, amended: when the generic options contain no bridge-name option and
the `NetworkID` has at least 5 bytes, `getBridgeName` returns `bridgePrefix`
followed by the first 5 bytes of the `NetworkID`; a second request without
override whose `NetworkID` has the same first 5 bytes gets the same name. -/
theorem getBridgeName_default (c : Consts) (r : CreateNetworkRequest) (m : GoMap)
    (hm : r.Options.index c.genericOptionsKey = GoValue.map m)
    (habs : m.lookup c.bridgeNameOption = none) (hlen : 5 ≤ r.NetworkID.length) :
    getBridgeName c r = Outcome.ret (c.bridgePrefix ++ r.NetworkID.take 5) none ∧
      ∀ (r' : CreateNetworkRequest) (m' : GoMap),
        r'.Options.index c.genericOptionsKey = GoValue.map m' →
        m'.lookup c.bridgeNameOption = none →
        r'.NetworkID.take 5 = r.NetworkID.take 5 →
        getBridgeName c r' = getBridgeName c r := by
  have key : ∀ (r' : CreateNetworkRequest) (m' : GoMap),
      r'.Options.index c.genericOptionsKey = GoValue.map m' →
      m'.lookup c.bridgeNameOption = none → 5 ≤ r'.NetworkID.length →
      getBridgeName c r' = Outcome.ret (c.bridgePrefix ++ r'.NetworkID.take 5) none := by
    intro r' m' hm' habs' hlen'
    simp [getBridgeName, getGenericOption_of_absent c r' m' _ _ hm' habs', truncateID, hlen']
  refine ⟨key r m hm habs hlen, fun r' m' hm' habs' htake => ?_⟩
  have hlen' : 5 ≤ r'.NetworkID.length := by
    have h := congrArg List.length htake
    simp only [List.length_take] at h
    omega
  rw [key r m hm habs hlen, key r' m' hm' habs' hlen', htake]

/-- Witness of C6, amended: `NetworkID` `abcde12345` gives `bridgePrefix ++ "abcde"`. -/
theorem getBridgeName_default_witness :
    5 ≤ (str "abcde12345").length ∧
      getBridgeName sampleConsts (mkRequest (str "abcde12345") [] [] []) =
        Outcome.ret (sampleConsts.bridgePrefix ++ str "abcde") none :=
  ⟨by decide,
    (getBridgeName_default sampleConsts (mkRequest (str "abcde12345") [] [] []) [] rfl rfl
      (by decide)).1⟩

/-- C7: `getBridgeMTU` returns the default 1500 when the generic options
contain no mtu option, and returns `n` when the mtu option is the decimal
string of an integer `n` of the `int` range (32 or 64 bits). -/
theorem getBridgeMTU_default_and_decimal (c : Consts)
    (hc : c.intSize = 32 ∨ c.intSize = 64) :
    (∀ (r : CreateNetworkRequest) (m : GoMap),
        r.Options.index c.genericOptionsKey = GoValue.map m →
        m.lookup c.mtuOption = none →
        getBridgeMTU c r = Outcome.ret 1500 none) ∧
    (∀ (r : CreateNetworkRequest) (m : GoMap) (n : Int),
        r.Options.index c.genericOptionsKey = GoValue.map m →
        m.lookup c.mtuOption = some (GoValue.string (itoa n)) →
        -(2 : Int) ^ (c.intSize - 1) ≤ n → n < (2 : Int) ^ (c.intSize - 1) →
        getBridgeMTU c r = Outcome.ret n none) := by
  constructor
  · intro r m hm habs
    simp [getBridgeMTU, getGenericOption_of_absent c r m _ _ hm habs, defaultMTU]
  · intro r m n hm hs hlo hhi
    have hne : itoa n ≠ [] := by
      intro h0
      have h1 := decimalValue_itoa n
      rw [h0] at h1
      simp [decimalValue] at h1
    simp only [getBridgeMTU, getGenericOption_of_string c r m _ _ _ hm hs, hne, ne_eq,
      not_false_eq_true, if_true]
    exact atoi_of_decimal _ (intSize_ge_two c hc) _ n (decimalValue_itoa n)
      (by push_cast; exact hlo) (by push_cast; exact hhi)

/-- Witness of C7: empty options give 1500 and `{"mtu": "9000"}` gives 9000. -/
theorem getBridgeMTU_default_and_decimal_witness :
    getBridgeMTU sampleConsts (mkRequest (str "abcde12345") [] [] []) =
        Outcome.ret 1500 none ∧
      getBridgeMTU sampleConsts
          (mkRequest (str "abcde12345") [(str "mtu", GoValue.string (str "9000"))] [] []) =
        Outcome.ret 9000 none :=
  ⟨(getBridgeMTU_default_and_decimal sampleConsts (Or.inr rfl)).1
      (mkRequest (str "abcde12345") [] [] []) [] rfl rfl,
    (getBridgeMTU_default_and_decimal sampleConsts (Or.inr rfl)).2
      (mkRequest (str "abcde12345") [(str "mtu", GoValue.string (str "9000"))] [] [])
      [(str "mtu", GoValue.string (str "9000"))] 9000 rfl rfl (by decide) (by decide)⟩

/-- C8 as stated fails at the empty string, which is no decimal integer: with
the mtu option bound to `""` the default 1500 is returned without error.
Beside a range error the bound of `int` is returned, not the zero value. -/
theorem getBridgeMTU_empty_falls_back :
    decimalValue [] = none ∧
      List.lookup sampleConsts.mtuOption [(str "mtu", GoValue.string [])] =
        some (GoValue.string []) ∧
      getBridgeMTU sampleConsts
          (mkRequest (str "abcde12345") [(str "mtu", GoValue.string [])] [] []) =
        Outcome.ret 1500 none ∧
      decimalValue (str "99999999999999999999x") = none ∧
      getBridgeMTU sampleConsts
          (mkRequest (str "abcde12345")
            [(str "mtu", GoValue.string (str "99999999999999999999x"))] [] []) =
        Outcome.ret 9223372036854775807
          (some (GoError.numError (str "99999999999999999999x") NumErrKind.errRange)) :=
  ⟨rfl, rfl, rfl, rfl, rfl⟩

/-- C8, amended: when the mtu option is a non-empty string that is not a
well-formed decimal integer, `getBridgeMTU` fails with the `NumError` of
`strconv.Atoi` for that string and never falls back to the default; beside a
syntax error the returned int is the zero value. -/
theorem getBridgeMTU_malformed (c : Consts) (hc : c.intSize = 32 ∨ c.intSize = 64)
    (r : CreateNetworkRequest) (m : GoMap) (s : GoString)
    (hm : r.Options.index c.genericOptionsKey = GoValue.map m)
    (hs : m.lookup c.mtuOption = some (GoValue.string s)) (hne : s ≠ [])
    (hmal : decimalValue s = none) :
    (∃ (v : Int) (k : NumErrKind),
        getBridgeMTU c r = Outcome.ret v (some (GoError.numError s k)) ∧
        (k = NumErrKind.errSyntax → v = 0)) ∧
      getBridgeMTU c r ≠ Outcome.ret defaultMTU none := by
  have hb : getBridgeMTU c r = atoi c.intSize s := by
    simp [getBridgeMTU, getGenericOption_of_string c r m _ _ s hm hs, hne]
  rw [hb]
  rcases atoi_of_malformed c.intSize (intSize_ge_two c hc) s hmal with h | ⟨v, h⟩
  · rw [h]
    exact ⟨⟨0, NumErrKind.errSyntax, rfl, fun _ => rfl⟩, fun he => by cases he⟩
  · rw [h]
    exact ⟨⟨v, NumErrKind.errRange, rfl, fun hk => by cases hk⟩, fun he => by cases he⟩

/-- Witness of C8, amended: the mtu option `abc` gives a syntax error for `abc`. -/
theorem getBridgeMTU_malformed_witness :
    str "abc" ≠ [] ∧ decimalValue (str "abc") = none ∧
      getBridgeMTU sampleConsts
          (mkRequest (str "abcde12345") [(str "mtu", GoValue.string (str "abc"))] [] []) =
        Outcome.ret 0 (some (GoError.numError (str "abc") NumErrKind.errSyntax)) ∧
      getBridgeMTU sampleConsts
          (mkRequest (str "abcde12345") [(str "mtu", GoValue.string (str "abc"))] [] []) ≠
        Outcome.ret defaultMTU none :=
  ⟨by decide, rfl, rfl,
    (getBridgeMTU_malformed sampleConsts (Or.inr rfl)
      (mkRequest (str "abcde12345") [(str "mtu", GoValue.string (str "abc"))] [] [])
      [(str "mtu", GoValue.string (str "abc"))] (str "abc") rfl rfl (by decide) rfl).2⟩

/-- C9 as stated fails: the mtu options `0` and `-1` are returned as the MTU 0
and -1 without error, and neither is positive. -/
theorem getBridgeMTU_not_positive :
    getBridgeMTU sampleConsts
          (mkRequest (str "abcde12345") [(str "mtu", GoValue.string (str "0"))] [] []) =
        Outcome.ret 0 none ∧
      getBridgeMTU sampleConsts
          (mkRequest (str "abcde12345") [(str "mtu", GoValue.string (str "-1"))] [] []) =
        Outcome.ret (-1) none ∧
      ¬ ((0 : Int) < 0) ∧ ¬ ((0 : Int) < -1) :=
  ⟨rfl, rfl, by decide, by decide⟩

/-- C9, amended: whenever `getBridgeMTU` returns `n` without error, `n` is
positive, unless the mtu option is a decimal string that denotes zero or a
negative integer, and then that integer is what is returned. -/
theorem getBridgeMTU_positive_unless_option (c : Consts)
    (hc : c.intSize = 32 ∨ c.intSize = 64) (r : CreateNetworkRequest) (n : Int)
    (h : getBridgeMTU c r = Outcome.ret n none) :
    0 < n ∨
      ∃ (m : GoMap) (s : GoString),
        r.Options.index c.genericOptionsKey = GoValue.map m ∧
        m.index c.mtuOption = GoValue.string s ∧ decimalValue s = some n ∧ n ≤ 0 := by
  unfold getBridgeMTU at h
  cases hopt : getGenericOption c r c.mtuOption [] with
  | panic p => rw [hopt] at h; cases h
  | ret mtu err =>
    rw [hopt] at h
    cases err with
    | some e => cases h
    | none =>
      simp only at h
      by_cases hmtu : mtu = []
      · left
        simp only [hmtu, ne_eq, not_true_eq_false, if_false] at h
        injection h with h1 h2
        rw [← h1]
        decide
      · simp only [hmtu, ne_eq, not_false_eq_true, if_true] at h
        have hval := decimalValue_of_atoi c.intSize (intSize_ge_two c hc) mtu n h
        obtain ⟨m, hm, hcase⟩ := getGenericOption_ok_inv c r c.mtuOption [] mtu hopt
        rcases hcase with ⟨_, hnil⟩ | hstr
        · exact absurd hnil hmtu
        · by_cases hpos : 0 < n
          · exact Or.inl hpos
          · exact Or.inr ⟨m, mtu, hm, hstr, hval, by omega⟩

/-- Witness of C9, amended: the mtu option `9000` is returned and is positive. -/
theorem getBridgeMTU_positive_unless_option_witness :
    getBridgeMTU sampleConsts
          (mkRequest (str "abcde12345") [(str "mtu", GoValue.string (str "9000"))] [] []) =
        Outcome.ret 9000 none ∧
      ((0 : Int) < 9000 ∨
        ∃ (m : GoMap) (s : GoString),
          (mkRequest (str "abcde12345") [(str "mtu", GoValue.string (str "9000"))] [] []).Options.index
              sampleConsts.genericOptionsKey = GoValue.map m ∧
          m.index sampleConsts.mtuOption = GoValue.string s ∧
          decimalValue s = some 9000 ∧ (9000 : Int) ≤ 0) :=
  ⟨rfl,
    getBridgeMTU_positive_unless_option sampleConsts (Or.inr rfl)
      (mkRequest (str "abcde12345") [(str "mtu", GoValue.string (str "9000"))] [] []) 9000 rfl⟩

/-- C10 as stated fails at the empty string: with the router-name option bound
to `""` the result is the error "Routing container not specified", not `""`
without error. -/
theorem getRouterName_empty_option_fails :
    List.lookup sampleConsts.routerNameOption [(str "router-name", GoValue.string [])] =
        some (GoValue.string []) ∧
      getRouterName sampleConsts
          (mkRequest (str "abcde12345") [(str "router-name", GoValue.string [])] [] []) =
        Outcome.ret []
          (some (GoError.errorf
            "Routing container not specified: speficy the routing container with the '%s' option"
            [GoValue.string (str "router-name")])) :=
  ⟨rfl, rfl⟩

/-- C10, amended: `getRouterName` fails with the error "Routing container not
specified" when the generic options contain no router-name option, and
returns exactly `s` with no error when the router-name option is a non-empty
string `s`. -/
theorem getRouterName_absent_or_set (c : Consts) (r : CreateNetworkRequest) (m : GoMap)
    (hm : r.Options.index c.genericOptionsKey = GoValue.map m) :
    (m.lookup c.routerNameOption = none →
        getRouterName c r =
          Outcome.ret []
            (some (GoError.errorf
              "Routing container not specified: speficy the routing container with the '%s' option"
              [GoValue.string c.routerNameOption]))) ∧
    (∀ s : GoString, s ≠ [] → m.lookup c.routerNameOption = some (GoValue.string s) →
        getRouterName c r = Outcome.ret s none) := by
  constructor
  · intro habs
    simp [getRouterName, getGenericOption_of_absent c r m _ _ hm habs]
  · intro s hne hs
    simp [getRouterName, getGenericOption_of_string c r m _ _ s hm hs, hne]

/-- Witness of C10, amended: `{"router-name": "gw1"}` gives `gw1`, and empty
generic options give the error. -/
theorem getRouterName_absent_or_set_witness :
    getRouterName sampleConsts
          (mkRequest (str "abcde12345") [(str "router-name", GoValue.string (str "gw1"))] [] []) =
        Outcome.ret (str "gw1") none ∧
      getRouterName sampleConsts (mkRequest (str "abcde12345") [] [] []) =
        Outcome.ret []
          (some (GoError.errorf
            "Routing container not specified: speficy the routing container with the '%s' option"
            [GoValue.string sampleConsts.routerNameOption])) :=
  ⟨(getRouterName_absent_or_set sampleConsts
      (mkRequest (str "abcde12345") [(str "router-name", GoValue.string (str "gw1"))] [] [])
      [(str "router-name", GoValue.string (str "gw1"))] rfl).2 (str "gw1") (by decide) rfl,
    (getRouterName_absent_or_set sampleConsts (mkRequest (str "abcde12345") [] [] []) [] rfl).1
      rfl⟩

/-- C11 as stated fails for a key bound to nil: the key is present with a
value that is not a string, and `getGenericOption` returns the default without
error instead of the cast error. -/
theorem getGenericOption_nil_value_gives_default :
    List.lookup (str "mtu") [(str "mtu", GoValue.nil)] = some GoValue.nil ∧
      getGenericOption sampleConsts
          (mkRequest (str "abcde12345") [(str "mtu", GoValue.nil)] [] []) (str "mtu")
          (str "dflt") =
        Outcome.ret (str "dflt") none :=
  ⟨rfl, rfl⟩

/-- C11, amended: for a request whose generic options are the map `m`,
`getGenericOption` returns the stored value when the key is bound to a string,
fails with the cast error when the key is bound to a value that is neither nil
nor a string, and returns the default when the key is absent or bound to nil. -/
theorem getGenericOption_three_outcomes (c : Consts) (r : CreateNetworkRequest) (m : GoMap)
    (opt dflt : GoString) (hm : r.Options.index c.genericOptionsKey = GoValue.map m) :
    (∀ s : GoString, m.lookup opt = some (GoValue.string s) →
        getGenericOption c r opt dflt = Outcome.ret s none) ∧
    (∀ v : GoValue, m.lookup opt = some v → v ≠ GoValue.nil →
        (∀ s : GoString, v ≠ GoValue.string s) →
        getGenericOption c r opt dflt =
          Outcome.ret []
            (some (GoError.errorf "Casting the value of the %s option to string failed: %v"
              [GoValue.string opt, v]))) ∧
    (m.lookup opt = none ∨ m.lookup opt = some GoValue.nil →
        getGenericOption c r opt dflt = Outcome.ret dflt none) := by
  refine ⟨fun s hs => getGenericOption_of_string c r m opt dflt s hm hs, ?_, ?_⟩
  · intro v hv hnil hstr
    unfold getGenericOption getGenericOptions
    rw [hm]
    cases v with
    | nil => exact absurd rfl hnil
    | string s => exact absurd rfl (hstr s)
    | bool b => simp [GoMap.index, hv]
    | float64 b => simp [GoMap.index, hv]
    | slice xs => simp [GoMap.index, hv]
    | map m2 => simp [GoMap.index, hv]
  · intro h
    rcases h with h | h
    · exact getGenericOption_of_absent c r m opt dflt hm h
    · unfold getGenericOption getGenericOptions
      rw [hm]
      simp [GoMap.index, h]

/-- Witness of C11, amended: a string is returned, a number gives the cast
error, an absent key gives the default. -/
theorem getGenericOption_three_outcomes_witness :
    getGenericOption sampleConsts
          (mkRequest (str "abcde12345")
            [(str "mtu", GoValue.float64 9000), (str "router-name", GoValue.string (str "gw1"))]
            [] []) (str "router-name") (str "dflt") =
        Outcome.ret (str "gw1") none ∧
      getGenericOption sampleConsts
          (mkRequest (str "abcde12345")
            [(str "mtu", GoValue.float64 9000), (str "router-name", GoValue.string (str "gw1"))]
            [] []) (str "mtu") (str "dflt") =
        Outcome.ret []
          (some (GoError.errorf "Casting the value of the %s option to string failed: %v"
            [GoValue.string (str "mtu"), GoValue.float64 9000])) ∧
      getGenericOption sampleConsts
          (mkRequest (str "abcde12345")
            [(str "mtu", GoValue.float64 9000), (str "router-name", GoValue.string (str "gw1"))]
            [] []) (str "bridge-name") (str "dflt") =
        Outcome.ret (str "dflt") none :=
  ⟨(getGenericOption_three_outcomes sampleConsts
      (mkRequest (str "abcde12345")
        [(str "mtu", GoValue.float64 9000), (str "router-name", GoValue.string (str "gw1"))]
        [] [])
      [(str "mtu", GoValue.float64 9000), (str "router-name", GoValue.string (str "gw1"))]
      (str "router-name") (str "dflt") rfl).1 (str "gw1") rfl,
    (getGenericOption_three_outcomes sampleConsts
      (mkRequest (str "abcde12345")
        [(str "mtu", GoValue.float64 9000), (str "router-name", GoValue.string (str "gw1"))]
        [] [])
      [(str "mtu", GoValue.float64 9000), (str "router-name", GoValue.string (str "gw1"))]
      (str "mtu") (str "dflt") rfl).2.1 (GoValue.float64 9000) rfl (fun h => by cases h)
      (fun s h => by cases h),
    (getGenericOption_three_outcomes sampleConsts
      (mkRequest (str "abcde12345")
        [(str "mtu", GoValue.float64 9000), (str "router-name", GoValue.string (str "gw1"))]
        [] [])
      [(str "mtu", GoValue.float64 9000), (str "router-name", GoValue.string (str "gw1"))]
      (str "bridge-name") (str "dflt") rfl).2.2 (Or.inl rfl)⟩

/-- C17: whenever `getGatewayIP` succeeds with `(ip, prefix)` on the selected
gateway string `g`, both results are non-empty and free of `/`,
`ip ++ "/" ++ prefix` is a prefix of `g`, and it is all of `g` exactly when `g`
contains a single `/`. -/
theorem getGatewayIP_ok_shape (r : CreateNetworkRequest) (ip pfx : GoString)
    (h : getGatewayIP r = Outcome.ret (ip, pfx) none) :
    ip ≠ [] ∧ pfx ≠ [] ∧ slash ∉ ip ∧ slash ∉ pfx ∧
      (ip ++ slash :: pfx) <+: selectGateway r ∧
      (ip ++ slash :: pfx = selectGateway r ↔ (selectGateway r).count slash = 1) := by
  have hne : selectGateway r ≠ [] := by
    intro h0
    simp [getGatewayIP, h0] at h
  rw [getGatewayIP_of_select r hne] at h
  obtain ⟨h1, h2, h3, h4, hg⟩ := splitGateway_ok_inv _ ip pfx h
  have c3 : List.count slash ip = 0 := List.count_eq_zero_of_not_mem h3
  have c4 : List.count slash pfx = 0 := List.count_eq_zero_of_not_mem h4
  refine ⟨h1, h2, h3, h4, ?_, ?_⟩
  · rcases hg with hg | ⟨t, hg⟩
    · rw [hg]
    · rw [hg]
      exact ⟨slash :: t, by simp⟩
  · rcases hg with hg | ⟨t, hg⟩
    · rw [hg]
      simp [List.count_append, List.count_cons, c3, c4]
    · rw [hg]
      constructor
      · intro heq
        have hlen := congrArg List.length heq
        simp at hlen
      · intro hcount
        simp only [List.count_append, List.count_cons, c3, c4, beq_self_eq_true, if_true] at hcount
        omega

/-- Witness of C17: `10.0.0.1/24/extra` succeeds with `("10.0.0.1", "24")`, which
is a proper prefix of the gateway string. -/
theorem getGatewayIP_ok_shape_witness :
    getGatewayIP (mkRequest (str "abcde12345") [] [gatewayOnly (str "10.0.0.1/24/extra")] []) =
        Outcome.ret (str "10.0.0.1", str "24") none ∧
      (str "10.0.0.1" ++ slash :: str "24") <+:
        selectGateway
          (mkRequest (str "abcde12345") [] [gatewayOnly (str "10.0.0.1/24/extra")] []) ∧
      ¬ (str "10.0.0.1" ++ slash :: str "24" =
        selectGateway
          (mkRequest (str "abcde12345") [] [gatewayOnly (str "10.0.0.1/24/extra")] [])) :=
  ⟨rfl,
    (getGatewayIP_ok_shape
      (mkRequest (str "abcde12345") [] [gatewayOnly (str "10.0.0.1/24/extra")] [])
      (str "10.0.0.1") (str "24") rfl).2.2.2.2.1,
    by decide⟩

/-- C12: `setInterfaceIP` makes at most two lookups; exactly one when the
first succeeds (none follows a success); and when both fail it returns the
"Abandoning retrieving the new bridge link" error around the last lookup error
without parsing the address and without adding an address, the host being
left as it was. -/
theorem setInterfaceIP_bounded_retry (k : Kernel) (name rawIP : GoString) (w : World) :
    countLookups (eventsSince w (setInterfaceIP k name rawIP w).2) ≤ 2 ∧
    (∀ link, k.linkByName w.lookups name = Except.ok link →
        countLookups (eventsSince w (setInterfaceIP k name rawIP w).2) = 1) ∧
    (∀ e1 e2, k.linkByName w.lookups name = Except.error e1 →
        k.linkByName (w.lookups + 1) name = Except.error e2 →
        (setInterfaceIP k name rawIP w).1 =
          Outcome.ret ()
            (some (GoError.errorfErr
              "Abandoning retrieving the new bridge link from netlink, Run [ ip link ] to troubleshoot the error: %v"
              [] e2)) ∧
        countLookups (eventsSince w (setInterfaceIP k name rawIP w).2) = 2 ∧
        countParses (eventsSince w (setInterfaceIP k name rawIP w).2) = 0 ∧
        countAddrAdds (eventsSince w (setInterfaceIP k name rawIP w).2) = 0 ∧
        (setInterfaceIP k name rawIP w).2.host = w.host) := by
  rcases setInterfaceIP_events k name rawIP w with
    ⟨e1, e2, h0, h1, _, hres, hhost, hev⟩ | ⟨link, pre, _, hpre, hpost⟩
  · refine ⟨by simp [hev, countLookups], ?_, ?_⟩
    · intro link hl
      rw [h0] at hl
      cases hl
    · intro a1 a2 ha1 ha2
      rw [h1] at ha2
      injection ha2 with ha2
      subst ha2
      exact ⟨hres, by simp [hev, countLookups], by simp [hev, countParses],
        by simp [hev, countAddrAdds], hhost⟩
  · have hcount : countLookups (eventsSince w (setInterfaceIP k name rawIP w).2) =
        countLookups pre := by
      rcases hpost with ⟨e, _, _, _, hev⟩ | ⟨n, _, hev⟩ <;> simp [hev, countLookups]
    rcases hpre with ⟨h0, hp⟩ | ⟨e1, h0, hp⟩
    · subst hp
      refine ⟨by rw [hcount]; simp [countLookups], ?_, ?_⟩
      · intro l _
        rw [hcount]
        simp [countLookups]
      · intro a1 a2 ha1 _
        rw [h0] at ha1
        cases ha1
    · subst hp
      refine ⟨by rw [hcount]; simp [countLookups], ?_, ?_⟩
      · intro l hl
        rw [h0] at hl
        cases hl
      · intro a1 a2 _ ha2
        have hv : firstVisible k name w.lookups = none := by
          simp [firstVisible, h0, ha2]
        simp_all

/-- Witness of C12: `ghost0` is never visible, and the call ends with the
error around "Link not found" after two lookups; `torbr-abcde` is visible at
once and is looked up once. -/
theorem setInterfaceIP_bounded_retry_witness :
    (setInterfaceIP sampleKernel (str "ghost0") (str "10.0.0.1/24") sampleWorld).1 =
        Outcome.ret ()
          (some (GoError.errorfErr
            "Abandoning retrieving the new bridge link from netlink, Run [ ip link ] to troubleshoot the error: %v"
            [] (GoError.external "Link not found"))) ∧
      countLookups (eventsSince sampleWorld
        (setInterfaceIP sampleKernel (str "ghost0") (str "10.0.0.1/24") sampleWorld).2) = 2 ∧
      countLookups (eventsSince sampleWorld
        (setInterfaceIP sampleKernel (str "torbr-abcde") (str "10.0.0.1/24") sampleWorld).2) = 1 :=
  have h := (setInterfaceIP_bounded_retry sampleKernel (str "ghost0") (str "10.0.0.1/24")
    sampleWorld).2.2 (GoError.external "Link not found") (GoError.external "Link not found")
    rfl rfl
  ⟨h.1, h.2.1,
    (setInterfaceIP_bounded_retry sampleKernel (str "torbr-abcde") (str "10.0.0.1/24")
      sampleWorld).2.1 sampleBridge rfl⟩

/-- C13, the code at the failing input: when the link never becomes visible,
the call sleeps twice, once after each failed lookup and so also after the
last one, 4 seconds in all, before it returns the error. -/
theorem setInterfaceIP_never_visible_sleeps_twice :
    eventsSince sampleWorld
        (setInterfaceIP sampleKernel (str "ghost0") (str "10.0.0.1/24") sampleWorld).2 =
        [Event.linkByName (str "ghost0"),
         Event.debugf "error retrieving new bridge netlink link [ %s ]... retrying"
           [LogArg.string (str "ghost0")],
         Event.sleep (2 * second), Event.linkByName (str "ghost0"),
         Event.debugf "error retrieving new bridge netlink link [ %s ]... retrying"
           [LogArg.string (str "ghost0")],
         Event.sleep (2 * second)] ∧
      countSleeps (eventsSince sampleWorld
        (setInterfaceIP sampleKernel (str "ghost0") (str "10.0.0.1/24") sampleWorld).2) = 2 ∧
      sleepTotal (eventsSince sampleWorld
        (setInterfaceIP sampleKernel (str "ghost0") (str "10.0.0.1/24") sampleWorld).2) =
        4 * second ∧
      countSleeps (eventsSince sampleWorld
        (setInterfaceIP sampleKernel (str "torbr-abcde") (str "10.0.0.1/24") sampleWorld).2) = 0 :=
  ⟨rfl, rfl, rfl, rfl⟩

/-- C14, the code at the failing input: when the lookup fails, `interfaceUp`
returns no error value: evaluating `iface.Attrs().Name` on the nil link
panics.  No `LinkSetUp` is attempted. -/
theorem interfaceUp_lookup_failure_panics :
    sampleKernel.linkByName sampleWorld.lookups (str "ghost0") =
        Except.error (GoError.external "Link not found") ∧
      (interfaceUp sampleKernel (str "ghost0") sampleWorld).1 =
        Outcome.panic Panic.nilDereference ∧
      countLinkSetUps (eventsSince sampleWorld
        (interfaceUp sampleKernel (str "ghost0") sampleWorld).2) = 0 :=
  ⟨rfl, rfl, rfl⟩

/-- C15: when the bridge resolves to a link, `vethPair` returns the
descriptor whose attributes are those of `NewLinkAttrs()` with the name
`torPortPrefix ++ suffix` and the master index of the bridge, and whose peer
name is `"ethc" ++ suffix`; when it does not resolve, the lookup error is
returned with no descriptor.  The host is the same before and after. -/
theorem vethPair_descriptor (c : Consts) (k : Kernel) (suffix bridgeName : GoString)
    (w : World) :
    (∀ br : Link, k.linkByName w.lookups bridgeName = Except.ok br →
        (vethPair c k suffix bridgeName w).1 =
          Outcome.ret
            (some
              { LinkAttrs :=
                  { Index := k.newLinkAttrs.Index
                    Name := c.torPortPrefix ++ suffix
                    MasterIndex := br.Attrs.Index
                    others := k.newLinkAttrs.others }
                PeerName := str "ethc" ++ suffix }) none) ∧
    (∀ e : GoError, k.linkByName w.lookups bridgeName = Except.error e →
        (vethPair c k suffix bridgeName w).1 = Outcome.ret none (some e)) ∧
    (vethPair c k suffix bridgeName w).2.host = w.host ∧
    eventsSince w (vethPair c k suffix bridgeName w).2 = [Event.linkByName bridgeName] := by
  refine ⟨?_, ?_, ?_, ?_⟩
  · intro br h0
    simp [vethPair, netlinkLinkByName, h0]
  · intro e h0
    simp [vethPair, netlinkLinkByName, h0]
  · unfold vethPair netlinkLinkByName
    cases k.linkByName w.lookups bridgeName <;> rfl
  · apply eventsSince_of_append
    unfold vethPair netlinkLinkByName
    cases k.linkByName w.lookups bridgeName <;> rfl

/-- Witness of C15: suffix `abcde` on the bridge `torbr-abcde` of index 7, and
on a bridge that does not exist. -/
theorem vethPair_descriptor_witness :
    (vethPair sampleConsts sampleKernel (str "abcde") (str "torbr-abcde") sampleWorld).1 =
        Outcome.ret
          (some
            { LinkAttrs :=
                { Index := 0
                  Name := str "tor-veth0-abcde"
                  MasterIndex := 7
                  others := [(str "Alias", GoValue.string [])] }
              PeerName := str "ethcabcde" }) none ∧
      (vethPair sampleConsts sampleKernel (str "abcde") (str "ghost0") sampleWorld).1 =
        Outcome.ret none (some (GoError.external "Link not found")) :=
  ⟨(vethPair_descriptor sampleConsts sampleKernel (str "abcde") (str "torbr-abcde")
      sampleWorld).1 sampleBridge rfl,
    (vethPair_descriptor sampleConsts sampleKernel (str "abcde") (str "ghost0")
      sampleWorld).2.1 (GoError.external "Link not found") rfl⟩

/-- C16: `getIfaceAddr` returns the lookup error when the lookup fails, the
error "Interface %s has no IP addresses" when the IPv4 address list of the
interface is empty, and otherwise the `IPNet` of the first address of the
list, also when the list has more; then one info line is logged.  An error of
the listing itself is returned as it is. -/
theorem getIfaceAddr_outcomes (k : Kernel) (name : GoString) (w : World) :
    (∀ e : GoError, k.linkByName w.lookups name = Except.error e →
        (getIfaceAddr k name w).1 = Outcome.ret none (some e)) ∧
    (∀ link : Link, k.linkByName w.lookups name = Except.ok link →
        k.addrListError w.host link FAMILY_V4 = none →
        w.host.addrs link.Attrs.Index FAMILY_V4 = [] →
        (getIfaceAddr k name w).1 =
          Outcome.ret none
            (some (GoError.errorf "Interface %s has no IP addresses" [GoValue.string name]))) ∧
    (∀ (link : Link) (first : Addr) (rest : List Addr),
        k.linkByName w.lookups name = Except.ok link →
        k.addrListError w.host link FAMILY_V4 = none →
        w.host.addrs link.Attrs.Index FAMILY_V4 = first :: rest →
        (getIfaceAddr k name w).1 = Outcome.ret (some first.IPNet) none ∧
        (rest = [] → eventsSince w (getIfaceAddr k name w).2 =
          [Event.linkByName name, Event.addrList link FAMILY_V4]) ∧
        (rest ≠ [] → eventsSince w (getIfaceAddr k name w).2 =
          [Event.linkByName name, Event.addrList link FAMILY_V4,
           Event.infof
             "Interface [ %v ] has more than 1 IPv4 address. Defaulting to using [ %v ]\n"
             [LogArg.string name, LogArg.ip first.IPNet.IP]])) ∧
    (∀ (link : Link) (e : GoError), k.linkByName w.lookups name = Except.ok link →
        k.addrListError w.host link FAMILY_V4 = some e →
        (getIfaceAddr k name w).1 = Outcome.ret none (some e)) ∧
    (getIfaceAddr k name w).2.host = w.host := by
  refine ⟨?_, ?_, ?_, ?_, ?_⟩
  · intro e h0
    simp [getIfaceAddr, netlinkLinkByName, h0]
  · intro link h0 hl ha
    simp [getIfaceAddr, netlinkLinkByName, h0, netlinkAddrList, hl, ha]
  · intro link first rest h0 hl ha
    refine ⟨by simp [getIfaceAddr, netlinkLinkByName, h0, netlinkAddrList, hl, ha], ?_, ?_⟩
    · intro hr
      apply eventsSince_of_append
      simp [getIfaceAddr, netlinkLinkByName, h0, netlinkAddrList, hl, ha, hr, World.emit]
    · intro hr
      have hlen : 1 < (first :: rest).length := by
        cases rest with
        | nil => exact absurd rfl hr
        | cons a t => simp
      apply eventsSince_of_append
      simp only [getIfaceAddr, netlinkLinkByName, h0, netlinkAddrList, hl, ha, hlen, if_true,
        World.emit]
      simp
  · intro link e h0 hl
    simp [getIfaceAddr, netlinkLinkByName, h0, netlinkAddrList, hl]
  · unfold getIfaceAddr netlinkLinkByName
    cases h0 : k.linkByName w.lookups name with
    | error e => rfl
    | ok link =>
      simp only [netlinkAddrList]
      cases hl : k.addrListError w.host link FAMILY_V4 with
      | some e => rfl
      | none =>
        simp only []
        cases ha : w.host.addrs link.Attrs.Index FAMILY_V4 with
        | nil => rfl
        | cons first rest =>
          simp only [World.emit]
          split <;> rfl

/-- Witness of C16: the sample bridge has two addresses and the first one,
`10.0.0.1/24`, is returned; an interface that does not exist gives the lookup
error. -/
theorem getIfaceAddr_outcomes_witness :
    (getIfaceAddr sampleKernel (str "torbr-abcde") sampleWorld).1 =
        Outcome.ret (some sampleNet) none ∧
      (getIfaceAddr sampleKernel (str "ghost0") sampleWorld).1 =
        Outcome.ret none (some (GoError.external "Link not found")) ∧
      (getIfaceAddr sampleKernel (str "late0")
          { host := sampleWorld.host, lookups := 1, trace := [] }).1 =
        Outcome.ret none
          (some (GoError.errorf "Interface %s has no IP addresses"
            [GoValue.string (str "late0")])) :=
  ⟨((getIfaceAddr_outcomes sampleKernel (str "torbr-abcde") sampleWorld).2.2.1 sampleBridge
      { IPNet := sampleNet, Label := [], Flags := 0, Scope := 0 }
      [{ IPNet := sampleNet2, Label := [], Flags := 0, Scope := 0 }] rfl rfl rfl).1,
    (getIfaceAddr_outcomes sampleKernel (str "ghost0") sampleWorld).1
      (GoError.external "Link not found") rfl,
    (getIfaceAddr_outcomes sampleKernel (str "late0")
      { host := sampleWorld.host, lookups := 1, trace := [] }).2.1
      { Attrs := { Index := 9, Name := str "late0", MasterIndex := 0, others := [] }
        TypeName := str "veth" } rfl rfl rfl⟩

/-- C18: a call of `setInterfaceIP` invokes `AddrAdd` at most once.  When the
lookup fails (both attempts) or the address does not parse, the lookup or
parse error is what is returned, `AddrAdd` is not invoked and the host,
with the addresses of every interface, is as before.  Every `AddrAdd` of the
call is made on the link that the successful lookup returned, with the parsed
address, so after a successful lookup and a successful parse. -/
theorem setInterfaceIP_atomic (k : Kernel) (name rawIP : GoString) (w : World) :
    countAddrAdds (eventsSince w (setInterfaceIP k name rawIP w).2) ≤ 1 ∧
    (firstVisible k name w.lookups = none →
        (∃ e, (setInterfaceIP k name rawIP w).1 =
          Outcome.ret ()
            (some (GoError.errorfErr
              "Abandoning retrieving the new bridge link from netlink, Run [ ip link ] to troubleshoot the error: %v"
              [] e))) ∧
        countAddrAdds (eventsSince w (setInterfaceIP k name rawIP w).2) = 0 ∧
        (setInterfaceIP k name rawIP w).2.host = w.host) ∧
    (∀ (link : Link) (e : GoError), firstVisible k name w.lookups = some link →
        k.parseIPNet rawIP = Except.error e →
        (setInterfaceIP k name rawIP w).1 = Outcome.ret () (some e) ∧
        countAddrAdds (eventsSince w (setInterfaceIP k name rawIP w).2) = 0 ∧
        (setInterfaceIP k name rawIP w).2.host = w.host) ∧
    (∀ (link : Link) (addr : Addr),
        Event.addrAdd link addr ∈ eventsSince w (setInterfaceIP k name rawIP w).2 →
        firstVisible k name w.lookups = some link ∧
        ∃ ipNet, k.parseIPNet rawIP = Except.ok ipNet ∧
          addr = { IPNet := ipNet, Label := [], Flags := 0, Scope := 0 }) := by
  rcases setInterfaceIP_events k name rawIP w with
    ⟨e1, e2, h0, h1, hv, hres, hhost, hev⟩ | ⟨link, pre, hv, hpre, hpost⟩
  · refine ⟨by simp [hev, countAddrAdds], fun _ => ⟨⟨e2, hres⟩, by simp [hev, countAddrAdds],
      hhost⟩, ?_, ?_⟩
    · intro l e hl
      rw [hv] at hl
      cases hl
    · intro l a hmem
      rw [hev] at hmem
      simp at hmem
  · have hprecount : countAddrAdds pre = 0 := by
      rcases hpre with ⟨_, hp⟩ | ⟨_, _, hp⟩ <;> subst hp <;> simp [countAddrAdds]
    have hpremem : ∀ l a, Event.addrAdd l a ∉ pre := by
      intro l a hmem
      rcases hpre with ⟨_, hp⟩ | ⟨_, _, hp⟩ <;> subst hp <;> simp at hmem
    rcases hpost with ⟨e, hp, hres, hhost, hev⟩ | ⟨n, hp, hev⟩
    · have hzero : countAddrAdds (eventsSince w (setInterfaceIP k name rawIP w).2) = 0 := by
        rw [hev]
        simp only [countAddrAdds, List.countP_append] at hprecount ⊢
        simp [hprecount]
      refine ⟨by omega, ?_, ?_, ?_⟩
      · intro hnone
        rw [hv] at hnone
        cases hnone
      · intro l e' _ hp'
        rw [hp] at hp'
        injection hp' with hp'
        subst hp'
        exact ⟨hres, hzero, hhost⟩
      · intro l a hmem
        rw [hev] at hmem
        rcases List.mem_append.mp hmem with hm | hm
        · exact absurd hm (hpremem l a)
        · simp at hm
    · refine ⟨?_, ?_, ?_, ?_⟩
      · rw [hev]
        simp only [countAddrAdds, List.countP_append] at hprecount ⊢
        simp [hprecount]
      · intro hnone
        rw [hv] at hnone
        cases hnone
      · intro l e' _ hp'
        rw [hp] at hp'
        cases hp'
      · intro l a hmem
        rw [hev] at hmem
        rcases List.mem_append.mp hmem with hm | hm
        · exact absurd hm (hpremem l a)
        · simp only [List.mem_cons, List.mem_singleton, Event.addrAdd.injEq, false_or,
            List.not_mem_nil, or_false] at hm
          rcases hm with hm | ⟨hl, ha⟩
          · cases hm
          · subst hl
            exact ⟨hv, n, hp, ha⟩

/-- Witness of C18: on `late0`, visible at the second lookup, an address that
does not parse gives the parse error with no `AddrAdd` and the host as
before; an address that parses is added once, on the link found. -/
theorem setInterfaceIP_atomic_witness :
    (setInterfaceIP sampleKernel (str "late0") (str "10.0.0.1") sampleWorld).1 =
        Outcome.ret () (some (GoError.external "invalid CIDR address")) ∧
      countAddrAdds (eventsSince sampleWorld
        (setInterfaceIP sampleKernel (str "late0") (str "10.0.0.1") sampleWorld).2) = 0 ∧
      (setInterfaceIP sampleKernel (str "late0") (str "10.0.0.1") sampleWorld).2.host =
        sampleWorld.host ∧
      countAddrAdds (eventsSince sampleWorld
        (setInterfaceIP sampleKernel (str "late0") (str "10.0.0.1/24") sampleWorld).2) = 1 :=
  have h := (setInterfaceIP_atomic sampleKernel (str "late0") (str "10.0.0.1")
    sampleWorld).2.2.1
    { Attrs := { Index := 9, Name := str "late0", MasterIndex := 0, others := [] }
      TypeName := str "veth" }
    (GoError.external "invalid CIDR address") rfl rfl
  ⟨h.1, h.2.1, h.2.2, rfl⟩

end Tor
